import Mathlib

/-!
Verification of the orb-field particle simulation core.

The definitions below are a shallow embedding of the TypeScript source:
numbers are modelled as exact rationals, grid cell states as natural
number bitmasks, and the imperative loops as folds over explicit offset
lists.  Calls to Math.sqrt, Math.pow and Math.atan2 on rationals are
modelled by oracle function parameters, constrained by hypotheses in the
theorems; the random direction produced by Math.random in the
degenerate-collision branch is passed in as a parameter.
-/

/-- JavaScript bitwise-or-zero truncation toward zero, as used by the source
in pixel-to-cell conversion. -/
def jsTrunc (q : ℚ) : ℤ :=
  if q < 0 then ⌈q⌉ else ⌊q⌋

/-- JavaScript Math.round: nearest integer, halves toward positive infinity. -/
def jsRound (q : ℚ) : ℤ :=
  ⌊q + 1 / 2⌋

/-- Floor of the square root of a natural number, as computed by
Math.floor(Math.sqrt(n)) in the source.  Written as a fold so that it
evaluates by kernel reduction. -/
def jsSqrtFloor (n : ℕ) : ℕ :=
  (List.range (n + 1)).foldl (fun acc k => if k * k ≤ n then k else acc) 0

namespace SharedTypes

/-- Source constant CELL_EMPTY from shared/types.ts. -/
def CELL_EMPTY : ℕ := 0

/-- Source constant CELL_PROXIMITY, bit 0. -/
def CELL_PROXIMITY : ℕ := 1

/-- Source constant CELL_FILLED, bit 1. -/
def CELL_FILLED : ℕ := 2

/-- Source constant CELL_BORDER, bit 2. -/
def CELL_BORDER : ℕ := 4

/-- Source helper hasCellFlag from shared/types.ts: the bitwise and of the
state with the flag is nonzero. -/
def hasCellFlag (cellState flag : ℕ) : Bool :=
  decide (cellState &&& flag ≠ 0)

/-- Source helper addCellFlag from shared/types.ts: bitwise or. -/
def addCellFlag (cellState flag : ℕ) : ℕ :=
  cellState ||| flag

/-- Source helper removeCellFlag from shared/types.ts: bitwise and with the
complement of the flag, i.e. bitwise difference. -/
def removeCellFlag (cellState flag : ℕ) : ℕ :=
  Nat.ldiff cellState flag

end SharedTypes

/-- Modelled from the spec: the dense 3D occupancy grid.  The implementation
file of the SpatialGrid class is not part of the sources; section 4.1 of the
spec describes its operations.  Cell states are stored as a function from
integer coordinates to bitmasks, with the dimensions carried alongside. -/
structure SpatialGrid where
  cellsX : ℤ
  cellsY : ℤ
  layers : ℤ
  cells : ℤ → ℤ → ℤ → ℕ

/-- Modelled from the spec: a coordinate triple addresses a cell of the grid
when each component lies inside the configured dimensions. -/
def SpatialGrid.inBounds (g : SpatialGrid) (x y l : ℤ) : Prop :=
  0 ≤ x ∧ x < g.cellsX ∧ 0 ≤ y ∧ y < g.cellsY ∧ 0 ≤ l ∧ l < g.layers

instance (g : SpatialGrid) (x y l : ℤ) : Decidable (g.inBounds x y l) := by
  unfold SpatialGrid.inBounds
  infer_instance

/-- Modelled from the spec: point update of one in-range cell; writes to
out-of-range coordinates are dropped. -/
def SpatialGrid.modifyCell (g : SpatialGrid) (x y l : ℤ) (u : ℕ → ℕ) : SpatialGrid :=
  if g.inBounds x y l then
    { g with cells := fun a b c => if a = x ∧ b = y ∧ c = l then u (g.cells a b c) else g.cells a b c }
  else g

/-- Modelled from the spec: grid operation addCellFlag, a bitwise or that
preserves co-resident flags. -/
def SpatialGrid.addCellFlag (g : SpatialGrid) (x y l : ℤ) (flag : ℕ) : SpatialGrid :=
  g.modifyCell x y l (fun s => SharedTypes.addCellFlag s flag)

/-- Modelled from the spec: grid operation removeCellFlag, a bitwise
and-not that preserves co-resident flags. -/
def SpatialGrid.removeCellFlag (g : SpatialGrid) (x y l : ℤ) (flag : ℕ) : SpatialGrid :=
  g.modifyCell x y l (fun s => SharedTypes.removeCellFlag s flag)

/-- Modelled from the spec: grid read; out-of-range coordinates read as an
implicit border so that they are treated as blocking everywhere. -/
def SpatialGrid.getCell (g : SpatialGrid) (x y l : ℤ) : ℕ :=
  if g.inBounds x y l then g.cells x y l else SharedTypes.CELL_BORDER

/-- Modelled from the spec: a cell is blocking when FILLED or BORDER is set;
out-of-range coordinates are blocking. -/
def SpatialGrid.isBlocking (g : SpatialGrid) (x y l : ℤ) : Bool :=
  SharedTypes.hasCellFlag (g.getCell x y l) SharedTypes.CELL_FILLED ||
    SharedTypes.hasCellFlag (g.getCell x y l) SharedTypes.CELL_BORDER

/-- Viewport cell metrics from grid/types.ts, restricted to the fields the
embedded operations read. -/
structure ViewportCells where
  startCellX : ℤ
  startCellY : ℤ
  cellSizeXPx : ℚ
  cellSizeYPx : ℚ
  invCellSizeXPx : ℚ
  invCellSizeYPx : ℚ

/-- The 3D orb model from orb/types.ts, restricted to the kinematic fields
the embedded operations read; the id and the lifecycle timestamps do not
enter any of the verified operations. -/
structure Orb where
  pxX : ℚ
  pxY : ℚ
  z : ℚ
  vx : ℚ
  vy : ℚ
  vz : ℚ
  speed : ℚ
  angle : ℚ
  size : ℕ

/-- Pixel to cell conversion, the source expression
((px * invCellSize) | 0) + startCell. -/
def toCell (px inv : ℚ) (start : ℤ) : ℤ :=
  jsTrunc (px * inv) + start

/-- The signed offsets -a..a of a loop for (let d = -a; d <= a; d++). -/
def offsets (a : ℕ) : List ℤ :=
  (List.range (2 * a + 1)).map (fun (i : ℕ) => (i : ℤ) - (a : ℤ))

/-- All offset triples (dx, dy, dz) of the triple loop over a cube of
half-side a, in source iteration order (dz outermost, dx innermost). -/
def cellTriples (a : ℕ) : List (ℤ × ℤ × ℤ) :=
  (offsets a).flatMap fun dz =>
    (offsets a).flatMap fun dy =>
      (offsets a).map fun dx => (dx, dy, dz)

/-- Squared euclidean length of an offset triple, the source expression
dx*dx + dy*dy + dz*dz. -/
def sqLen (d : ℤ × ℤ × ℤ) : ℤ :=
  d.1 * d.1 + d.2.1 * d.2.1 + d.2.2 * d.2.2

namespace OrbPhysics

/-- The avoidance radius from OrbPhysics.markOrbCircular:
Math.floor(Math.sqrt(size) + radius + 1) with radius = size - 1. -/
def avoidanceRadius (size : ℕ) : ℕ :=
  jsSqrtFloor size + (size - 1) + 1

/-- Embedding of OrbPhysics.markOrbCircular: stamp the avoidance shell with
PROXIMITY and then the spherical body with FILLED, iterating the offset cube
exactly as the source loops do. -/
def markOrbCircular (grid : SpatialGrid) (orb : Orb) (startCellX startCellY : ℤ)
    (invCellSizeX invCellSizeY : ℚ) : SpatialGrid :=
  let centerCellX := toCell orb.pxX invCellSizeX startCellX
  let centerCellY := toCell orb.pxY invCellSizeY startCellY
  let centerLayer := jsRound orb.z
  let radius : ℤ := (orb.size : ℤ) - 1
  let avoidR : ℤ := (avoidanceRadius orb.size : ℤ)
  let g1 := (cellTriples (avoidanceRadius orb.size)).foldl (fun g d =>
    if radius * radius < sqLen d ∧ sqLen d ≤ avoidR * avoidR then
      g.addCellFlag (centerCellX + d.1) (centerCellY + d.2.1) (centerLayer + d.2.2)
        SharedTypes.CELL_PROXIMITY
    else g) grid
  (cellTriples (orb.size - 1)).foldl (fun g d =>
    if sqLen d ≤ radius * radius then
      g.addCellFlag (centerCellX + d.1) (centerCellY + d.2.1) (centerLayer + d.2.2)
        SharedTypes.CELL_FILLED
    else g) g1

/-- Embedding of OrbPhysics.clearOrbCircular: remove PROXIMITY from the
avoidance shell and FILLED from the spherical body, mirroring the source
loops. -/
def clearOrbCircular (grid : SpatialGrid) (orb : Orb) (startCellX startCellY : ℤ)
    (invCellSizeX invCellSizeY : ℚ) : SpatialGrid :=
  let centerCellX := toCell orb.pxX invCellSizeX startCellX
  let centerCellY := toCell orb.pxY invCellSizeY startCellY
  let centerLayer := jsRound orb.z
  let radius : ℤ := (orb.size : ℤ) - 1
  let avoidR : ℤ := (avoidanceRadius orb.size : ℤ)
  let g1 := (cellTriples (avoidanceRadius orb.size)).foldl (fun g d =>
    if radius * radius < sqLen d ∧ sqLen d ≤ avoidR * avoidR then
      g.removeCellFlag (centerCellX + d.1) (centerCellY + d.2.1) (centerLayer + d.2.2)
        SharedTypes.CELL_PROXIMITY
    else g) grid
  (cellTriples (orb.size - 1)).foldl (fun g d =>
    if sqLen d ≤ radius * radius then
      g.removeCellFlag (centerCellX + d.1) (centerCellY + d.2.1) (centerLayer + d.2.2)
        SharedTypes.CELL_FILLED
    else g) g1

end OrbPhysics

namespace CollisionSystem

/-- The result record of CollisionSystem.checkMove. -/
structure CollisionResult where
  blocked : Bool
  reflectX : Bool
  reflectY : Bool
  reflectZ : Bool
deriving DecidableEq

/-- Embedding of CollisionSystem.checkMove: axis-independent blocking tests
against the grid.  Size-1 orbs probe the four destination cells (X, Y, Z
and full diagonal); larger orbs test the spherical footprint at each of the
three axis destinations. -/
def checkMove (orb : Orb) (deltaTime : ℚ) (grid : SpatialGrid) (vpc : ViewportCells) :
    CollisionResult :=
  let nextX := orb.pxX + orb.vx * deltaTime
  let nextY := orb.pxY + orb.vy * deltaTime
  let nextZ := orb.z + orb.vz * deltaTime
  let currCellX := toCell orb.pxX vpc.invCellSizeXPx vpc.startCellX
  let currCellY := toCell orb.pxY vpc.invCellSizeYPx vpc.startCellY
  let currLayer := jsRound orb.z
  let nextCellX := toCell nextX vpc.invCellSizeXPx vpc.startCellX
  let nextCellY := toCell nextY vpc.invCellSizeYPx vpc.startCellY
  let nextLayer := jsRound nextZ
  if orb.size = 1 then
    let blockedX := grid.isBlocking nextCellX currCellY currLayer
    let blockedY := grid.isBlocking currCellX nextCellY currLayer
    let blockedZ := grid.isBlocking currCellX currCellY nextLayer
    let blockedDiag := grid.isBlocking nextCellX nextCellY nextLayer
    { blocked := blockedX || blockedY || blockedZ || blockedDiag
      reflectX := blockedX || (blockedDiag && decide (nextCellX ≠ currCellX))
      reflectY := blockedY || (blockedDiag && decide (nextCellY ≠ currCellY))
      reflectZ := blockedZ || (blockedDiag && decide (nextLayer ≠ currLayer)) }
  else
    let radius : ℤ := (orb.size : ℤ) - 1
    let blockedX := (cellTriples (orb.size - 1)).any fun d =>
      decide (sqLen d ≤ radius * radius) &&
        grid.isBlocking (nextCellX + d.1) (currCellY + d.2.1) (currLayer + d.2.2)
    let blockedY := (cellTriples (orb.size - 1)).any fun d =>
      decide (sqLen d ≤ radius * radius) &&
        grid.isBlocking (currCellX + d.1) (nextCellY + d.2.1) (currLayer + d.2.2)
    let blockedZ := (cellTriples (orb.size - 1)).any fun d =>
      decide (sqLen d ≤ radius * radius) &&
        grid.isBlocking (currCellX + d.1) (currCellY + d.2.1) (nextLayer + d.2.2)
    { blocked := blockedX || blockedY || blockedZ
      reflectX := blockedX
      reflectY := blockedY
      reflectZ := blockedZ }

/-- Embedding of CollisionSystem.canSpawn: spawning is allowed when no cell
of the covered spherical footprint carries FILLED or BORDER. -/
def canSpawn (pxX pxY z : ℚ) (size : ℕ) (grid : SpatialGrid) (vpc : ViewportCells) : Bool :=
  let centerCellX := toCell pxX vpc.invCellSizeXPx vpc.startCellX
  let centerCellY := toCell pxY vpc.invCellSizeYPx vpc.startCellY
  let centerLayer := jsRound z
  if size = 1 then
    let state := grid.getCell centerCellX centerCellY centerLayer
    !(SharedTypes.hasCellFlag state SharedTypes.CELL_FILLED) &&
      !(SharedTypes.hasCellFlag state SharedTypes.CELL_BORDER)
  else
    let radius : ℤ := (size : ℤ) - 1
    (cellTriples (size - 1)).all fun d =>
      if sqLen d ≤ radius * radius then
        let state := grid.getCell (centerCellX + d.1) (centerCellY + d.2.1) (centerLayer + d.2.2)
        !(SharedTypes.hasCellFlag state SharedTypes.CELL_FILLED ||
          SharedTypes.hasCellFlag state SharedTypes.CELL_BORDER)
      else true

end CollisionSystem

namespace OrbPhysics

/-- Embedding of OrbPhysics.getMaxSpeed: baseMaxSpeed / Math.sqrt(size),
bounded below by minMaxSpeed.  The square root is taken through the oracle
parameter msqrt. -/
def getMaxSpeed (size : ℕ) (baseMaxSpeed minMaxSpeed : ℚ) (msqrt : ℚ → ℚ) : ℚ :=
  max minMaxSpeed (baseMaxSpeed / msqrt (size : ℚ))

/-- Embedding of OrbPhysics.applySpeedLimit: when the 3D speed (with vz
scaled by 20) exceeds the size-dependent cap, the velocity is rescaled so
the speed moves toward the cap by the factor
1 - (1 - decelerationRate) ^ (deltaTime * 60); Math.sqrt and Math.pow are
the oracle parameters msqrt and mpow. -/
def applySpeedLimit (orb : Orb) (baseMaxSpeed minMaxSpeed decelerationRate deltaTime : ℚ)
    (msqrt : ℚ → ℚ) (mpow : ℚ → ℚ → ℚ) : Orb :=
  let vzScaled := orb.vz * 20
  let currentSpeed := msqrt (orb.vx * orb.vx + orb.vy * orb.vy + vzScaled * vzScaled)
  if currentSpeed < 0.001 then orb
  else
    let maxSpeed := getMaxSpeed orb.size baseMaxSpeed minMaxSpeed msqrt
    if currentSpeed > maxSpeed then
      let smoothFactor := 1 - mpow (1 - decelerationRate) (deltaTime * 60)
      let newSpeed := currentSpeed + (maxSpeed - currentSpeed) * smoothFactor
      let scale := newSpeed / currentSpeed
      { orb with
        vx := orb.vx * scale
        vy := orb.vy * scale
        vz := orb.vz * scale
        speed := msqrt (orb.vx * scale * (orb.vx * scale) + orb.vy * scale * (orb.vy * scale)) }
    else orb

end OrbPhysics

namespace OrbOrbCollision

/-!
Embedding of OrbOrbCollision.resolveCollisions.  The body of the double
loop, which processes one pair of orbs, is decomposed into one definition
per local variable of the source, each parameterised by the Math.sqrt
oracle msqrt and, where the degenerate branch can be taken, by the random
direction (rX, rY, rZ) that the source draws from Math.random.  Rationals
are exact, so the isFinite guards of the source hold identically here; the
companion embedding in the OrbOrbCollisionF namespace tracks non-finite
values explicitly.
-/

/-- Cell-space X coordinate of an orb: orb.pxX * vpc.invCellSizeXPx. -/
def cellX (vpc : ViewportCells) (o : Orb) : ℚ := o.pxX * vpc.invCellSizeXPx

/-- Cell-space Y coordinate of an orb: orb.pxY * vpc.invCellSizeYPx. -/
def cellY (vpc : ViewportCells) (o : Orb) : ℚ := o.pxY * vpc.invCellSizeYPx

/-- Source local dx: cell-space X separation of the pair. -/
def dxPair (vpc : ViewportCells) (A B : Orb) : ℚ := cellX vpc B - cellX vpc A

/-- Source local dy: cell-space Y separation of the pair. -/
def dyPair (vpc : ViewportCells) (A B : Orb) : ℚ := cellY vpc B - cellY vpc A

/-- Source local dz: layer-space Z separation of the pair. -/
def dzPair (A B : Orb) : ℚ := B.z - A.z

/-- Source local distSq: squared cell-space distance of the pair. -/
def distSqPair (vpc : ViewportCells) (A B : Orb) : ℚ :=
  dxPair vpc A B * dxPair vpc A B + dyPair vpc A B * dyPair vpc A B +
    dzPair A B * dzPair A B

/-- Source local minDist: combined radius (size - 1 each) plus one. -/
def minDistPair (A B : Orb) : ℚ :=
  ((A.size : ℚ) - 1) + ((B.size : ℚ) - 1) + 1

/-- Source local dist: the distance, with the degenerate case
distSq < 0.001 replaced by the tiny constant 0.001. -/
def distPair (msqrt : ℚ → ℚ) (vpc : ViewportCells) (A B : Orb) : ℚ :=
  if distSqPair vpc A B < 0.001 then 0.001 else msqrt (distSqPair vpc A B)

/-- Source local nxCell: cell-space collision normal X, the random
direction in the degenerate case. -/
def nxCellPair (msqrt : ℚ → ℚ) (rX : ℚ) (vpc : ViewportCells) (A B : Orb) : ℚ :=
  if distSqPair vpc A B < 0.001 then rX else dxPair vpc A B / distPair msqrt vpc A B

/-- Source local nyCell: cell-space collision normal Y. -/
def nyCellPair (msqrt : ℚ → ℚ) (rY : ℚ) (vpc : ViewportCells) (A B : Orb) : ℚ :=
  if distSqPair vpc A B < 0.001 then rY else dyPair vpc A B / distPair msqrt vpc A B

/-- Source local nzCell: cell-space collision normal Z. -/
def nzCellPair (msqrt : ℚ → ℚ) (rZ : ℚ) (vpc : ViewportCells) (A B : Orb) : ℚ :=
  if distSqPair vpc A B < 0.001 then rZ else dzPair A B / distPair msqrt vpc A B

/-- Source local nxPx: the cell-space normal scaled back to pixel space. -/
def nxPxPair (msqrt : ℚ → ℚ) (rX : ℚ) (vpc : ViewportCells) (A B : Orb) : ℚ :=
  nxCellPair msqrt rX vpc A B * vpc.cellSizeXPx

/-- Source local nyPx. -/
def nyPxPair (msqrt : ℚ → ℚ) (rY : ℚ) (vpc : ViewportCells) (A B : Orb) : ℚ :=
  nyCellPair msqrt rY vpc A B * vpc.cellSizeYPx

/-- Source local nzPx: the Z component stays in layer units. -/
def nzPxPair (msqrt : ℚ → ℚ) (rZ : ℚ) (vpc : ViewportCells) (A B : Orb) : ℚ :=
  nzCellPair msqrt rZ vpc A B

/-- Source local lenPx: length of the pixel-space direction. -/
def lenPxPair (msqrt : ℚ → ℚ) (rX rY rZ : ℚ) (vpc : ViewportCells) (A B : Orb) : ℚ :=
  msqrt (nxPxPair msqrt rX vpc A B * nxPxPair msqrt rX vpc A B +
    nyPxPair msqrt rY vpc A B * nyPxPair msqrt rY vpc A B +
    nzPxPair msqrt rZ vpc A B * nzPxPair msqrt rZ vpc A B)

/-- Source local nx: normalised pixel-space collision normal X, zero when
the pixel-space length is at most 0.001. -/
def nxPair (msqrt : ℚ → ℚ) (rX rY rZ : ℚ) (vpc : ViewportCells) (A B : Orb) : ℚ :=
  if lenPxPair msqrt rX rY rZ vpc A B > 0.001 then
    nxPxPair msqrt rX vpc A B / lenPxPair msqrt rX rY rZ vpc A B
  else 0

/-- Source local ny. -/
def nyPair (msqrt : ℚ → ℚ) (rX rY rZ : ℚ) (vpc : ViewportCells) (A B : Orb) : ℚ :=
  if lenPxPair msqrt rX rY rZ vpc A B > 0.001 then
    nyPxPair msqrt rY vpc A B / lenPxPair msqrt rX rY rZ vpc A B
  else 0

/-- Source local nz. -/
def nzPair (msqrt : ℚ → ℚ) (rX rY rZ : ℚ) (vpc : ViewportCells) (A B : Orb) : ℚ :=
  if lenPxPair msqrt rX rY rZ vpc A B > 0.001 then
    nzPxPair msqrt rZ vpc A B / lenPxPair msqrt rX rY rZ vpc A B
  else 0

/-- Source local overlap: penetration depth minDist - dist. -/
def overlapPair (msqrt : ℚ → ℚ) (vpc : ViewportCells) (A B : Orb) : ℚ :=
  minDistPair A B - distPair msqrt vpc A B

/-- Source local overlapRatio: overlap / minDist when positive, else 0. -/
def overlapFracPair (msqrt : ℚ → ℚ) (vpc : ViewportCells) (A B : Orb) : ℚ :=
  if overlapPair msqrt vpc A B > 0 then overlapPair msqrt vpc A B / minDistPair A B else 0

/-- Source local separationA: (overlap * massB / totalMass) times the
separation multiplier 1.2 + 0.8 * overlapRatio; mass is the orb size. -/
def separationAPair (msqrt : ℚ → ℚ) (vpc : ViewportCells) (A B : Orb) : ℚ :=
  (overlapPair msqrt vpc A B * (B.size : ℚ) / ((A.size : ℚ) + (B.size : ℚ))) *
    (1.2 + 0.8 * overlapFracPair msqrt vpc A B)

/-- Source local separationB. -/
def separationBPair (msqrt : ℚ → ℚ) (vpc : ViewportCells) (A B : Orb) : ℚ :=
  (overlapPair msqrt vpc A B * (A.size : ℚ) / ((A.size : ℚ) + (B.size : ℚ))) *
    (1.2 + 0.8 * overlapFracPair msqrt vpc A B)

/-- Orb A after the position-correction step: pushed back along the
cell-space normal by separationA (converted to pixels on X and Y) when the
pair overlaps.  The isFinite guard of the source is identically true over
the rationals. -/
def posCorrA (msqrt : ℚ → ℚ) (rX rY rZ : ℚ) (vpc : ViewportCells) (A B : Orb) : Orb :=
  if overlapPair msqrt vpc A B > 0 then
    { A with
      pxX := A.pxX - nxCellPair msqrt rX vpc A B * separationAPair msqrt vpc A B * vpc.cellSizeXPx
      pxY := A.pxY - nyCellPair msqrt rY vpc A B * separationAPair msqrt vpc A B * vpc.cellSizeYPx
      z := A.z - nzCellPair msqrt rZ vpc A B * separationAPair msqrt vpc A B }
  else A

/-- Orb B after the position-correction step: pushed forward along the
cell-space normal by separationB. -/
def posCorrB (msqrt : ℚ → ℚ) (rX rY rZ : ℚ) (vpc : ViewportCells) (A B : Orb) : Orb :=
  if overlapPair msqrt vpc A B > 0 then
    { B with
      pxX := B.pxX + nxCellPair msqrt rX vpc A B * separationBPair msqrt vpc A B * vpc.cellSizeXPx
      pxY := B.pxY + nyCellPair msqrt rY vpc A B * separationBPair msqrt vpc A B * vpc.cellSizeYPx
      z := B.z + nzCellPair msqrt rZ vpc A B * separationBPair msqrt vpc A B }
  else B

/-- Source local dvn: relative velocity of A with respect to B projected
onto the pixel-space collision normal. -/
def dvnPair (msqrt : ℚ → ℚ) (rX rY rZ : ℚ) (vpc : ViewportCells) (A B : Orb) : ℚ :=
  (A.vx - B.vx) * nxPair msqrt rX rY rZ vpc A B +
    (A.vy - B.vy) * nyPair msqrt rX rY rZ vpc A B +
    (A.vz - B.vz) * nzPair msqrt rX rY rZ vpc A B

/-- Source local impulseA of the approaching branch:
(elasticity * massB / totalMass) * dvn with elasticity 0.8. -/
def impulseAPair (msqrt : ℚ → ℚ) (rX rY rZ : ℚ) (vpc : ViewportCells) (A B : Orb) : ℚ :=
  (0.8 * (B.size : ℚ) / ((A.size : ℚ) + (B.size : ℚ))) * dvnPair msqrt rX rY rZ vpc A B

/-- Source local impulseB of the approaching branch. -/
def impulseBPair (msqrt : ℚ → ℚ) (rX rY rZ : ℚ) (vpc : ViewportCells) (A B : Orb) : ℚ :=
  (0.8 * (A.size : ℚ) / ((A.size : ℚ) + (B.size : ℚ))) * dvnPair msqrt rX rY rZ vpc A B

/-- Source local impulseA of the stuck branch: the minimum separation speed
20 scaled by the overlap fraction and the mass split. -/
def minImpulseAPair (msqrt : ℚ → ℚ) (vpc : ViewportCells) (A B : Orb) : ℚ :=
  (20 * overlapFracPair msqrt vpc A B) * ((B.size : ℚ) / ((A.size : ℚ) + (B.size : ℚ)))

/-- Source local impulseB of the stuck branch. -/
def minImpulseBPair (msqrt : ℚ → ℚ) (vpc : ViewportCells) (A B : Orb) : ℚ :=
  (20 * overlapFracPair msqrt vpc A B) * ((A.size : ℚ) / ((A.size : ℚ) + (B.size : ℚ)))

/-- Embedding of the loop body of OrbOrbCollision.resolveCollisions for one
pair: position correction, then either the reduced-elasticity impulse (when
the pair approaches), or the minimum separation impulse (when it is stuck
with overlap fraction above 0.3), then the angle resynchronisation through
the Math.atan2 oracle matan2. -/
def resolveCollisionsPair (msqrt : ℚ → ℚ) (matan2 : ℚ → ℚ → ℚ) (rX rY rZ : ℚ)
    (vpc : ViewportCells) (orbA orbB : Orb) : Orb × Orb :=
  if distSqPair vpc orbA orbB < minDistPair orbA orbB * minDistPair orbA orbB then
    let a1 := posCorrA msqrt rX rY rZ vpc orbA orbB
    let b1 := posCorrB msqrt rX rY rZ vpc orbA orbB
    if dvnPair msqrt rX rY rZ vpc orbA orbB > 0 then
      let a2 := { a1 with
        vx := a1.vx - impulseAPair msqrt rX rY rZ vpc orbA orbB * nxPair msqrt rX rY rZ vpc orbA orbB
        vy := a1.vy - impulseAPair msqrt rX rY rZ vpc orbA orbB * nyPair msqrt rX rY rZ vpc orbA orbB
        vz := a1.vz - impulseAPair msqrt rX rY rZ vpc orbA orbB * nzPair msqrt rX rY rZ vpc orbA orbB }
      let b2 := { b1 with
        vx := b1.vx + impulseBPair msqrt rX rY rZ vpc orbA orbB * nxPair msqrt rX rY rZ vpc orbA orbB
        vy := b1.vy + impulseBPair msqrt rX rY rZ vpc orbA orbB * nyPair msqrt rX rY rZ vpc orbA orbB
        vz := b1.vz + impulseBPair msqrt rX rY rZ vpc orbA orbB * nzPair msqrt rX rY rZ vpc orbA orbB }
      ({ a2 with angle := matan2 a2.vy a2.vx }, { b2 with angle := matan2 b2.vy b2.vx })
    else if overlapFracPair msqrt vpc orbA orbB > 0.3 then
      let a2 := { a1 with
        vx := a1.vx - minImpulseAPair msqrt vpc orbA orbB * nxPair msqrt rX rY rZ vpc orbA orbB
        vy := a1.vy - minImpulseAPair msqrt vpc orbA orbB * nyPair msqrt rX rY rZ vpc orbA orbB
        vz := a1.vz - minImpulseAPair msqrt vpc orbA orbB * nzPair msqrt rX rY rZ vpc orbA orbB * 0.05 }
      let b2 := { b1 with
        vx := b1.vx + minImpulseBPair msqrt vpc orbA orbB * nxPair msqrt rX rY rZ vpc orbA orbB
        vy := b1.vy + minImpulseBPair msqrt vpc orbA orbB * nyPair msqrt rX rY rZ vpc orbA orbB
        vz := b1.vz + minImpulseBPair msqrt vpc orbA orbB * nzPair msqrt rX rY rZ vpc orbA orbB * 0.05 }
      ({ a2 with angle := matan2 a2.vy a2.vx }, { b2 with angle := matan2 b2.vy b2.vx })
    else
      ({ a1 with angle := matan2 a1.vy a1.vx }, { b1 with angle := matan2 b1.vy b1.vx })
  else (orbA, orbB)

end OrbOrbCollision

namespace OrbOrbCollisionF

/-!
A second embedding of the loop body of OrbOrbCollision.resolveCollisions in
which every number is either a finite rational (some q) or a non-finite
value (none), abstracting the NaN and infinity values of the
floating-point domain.  Arithmetic propagates non-finite operands,
division by zero produces a non-finite value, comparisons involving a
non-finite value are false, and isFinite is Option.isSome.  This embedding
settles the error-handling claim about the finiteness guards of the
source.
-/

/-- A possibly non-finite numeric value. -/
abbrev FVal := Option ℚ

/-- Lift a finite rational. -/
def fin (q : ℚ) : FVal := some q

/-- Addition propagating non-finite operands. -/
def fadd : FVal → FVal → FVal
  | some a, some b => some (a + b)
  | _, _ => none

/-- Subtraction propagating non-finite operands. -/
def fsub : FVal → FVal → FVal
  | some a, some b => some (a - b)
  | _, _ => none

/-- Multiplication propagating non-finite operands. -/
def fmul : FVal → FVal → FVal
  | some a, some b => some (a * b)
  | _, _ => none

/-- Division: non-finite when either operand is non-finite or the divisor
is zero. -/
def fdiv : FVal → FVal → FVal
  | some a, some b => if b = 0 then none else some (a / b)
  | _, _ => none

/-- Strict comparison, false on non-finite operands as NaN comparisons
are. -/
def flt (a b : FVal) : Bool :=
  match a, b with
  | some x, some y => decide (x < y)
  | _, _ => false

/-- The isFinite test of the source. -/
def fIsFinite (a : FVal) : Bool := a.isSome

/-- Math.sqrt through the rational oracle, propagating non-finite input. -/
def fsqrt (msqrt : ℚ → ℚ) : FVal → FVal
  | some a => some (msqrt a)
  | none => none

/-- The orb state for the possibly non-finite embedding: kinematic fields
may hold non-finite values, the size is the finite integer it always is in
the source. -/
structure OrbF where
  pxX : FVal
  pxY : FVal
  z : FVal
  vx : FVal
  vy : FVal
  vz : FVal
  angle : FVal
  size : ℕ

/-- Source local dx in cell space. -/
def dxF (vpc : ViewportCells) (A B : OrbF) : FVal :=
  fsub (fmul B.pxX (fin vpc.invCellSizeXPx)) (fmul A.pxX (fin vpc.invCellSizeXPx))

/-- Source local dy in cell space. -/
def dyF (vpc : ViewportCells) (A B : OrbF) : FVal :=
  fsub (fmul B.pxY (fin vpc.invCellSizeYPx)) (fmul A.pxY (fin vpc.invCellSizeYPx))

/-- Source local dz in layer space. -/
def dzF (A B : OrbF) : FVal := fsub B.z A.z

/-- Source local distSq. -/
def distSqF (vpc : ViewportCells) (A B : OrbF) : FVal :=
  fadd (fadd (fmul (dxF vpc A B) (dxF vpc A B)) (fmul (dyF vpc A B) (dyF vpc A B)))
    (fmul (dzF A B) (dzF A B))

/-- Source local minDist, always finite because sizes are integers. -/
def minDistF (A B : OrbF) : ℚ :=
  ((A.size : ℚ) - 1) + ((B.size : ℚ) - 1) + 1

/-- Source local dist with the degenerate substitution of 0.001. -/
def distF (msqrt : ℚ → ℚ) (vpc : ViewportCells) (A B : OrbF) : FVal :=
  if flt (distSqF vpc A B) (fin 0.001) then fin 0.001 else fsqrt msqrt (distSqF vpc A B)

/-- Source local nxCell: the random X direction in the degenerate case. -/
def nxCellF (msqrt : ℚ → ℚ) (rX : ℚ) (vpc : ViewportCells) (A B : OrbF) : FVal :=
  if flt (distSqF vpc A B) (fin 0.001) then fin rX
  else fdiv (dxF vpc A B) (distF msqrt vpc A B)

/-- Source local nyCell. -/
def nyCellF (msqrt : ℚ → ℚ) (rY : ℚ) (vpc : ViewportCells) (A B : OrbF) : FVal :=
  if flt (distSqF vpc A B) (fin 0.001) then fin rY
  else fdiv (dyF vpc A B) (distF msqrt vpc A B)

/-- Source local nzCell. -/
def nzCellF (msqrt : ℚ → ℚ) (rZ : ℚ) (vpc : ViewportCells) (A B : OrbF) : FVal :=
  if flt (distSqF vpc A B) (fin 0.001) then fin rZ
  else fdiv (dzF A B) (distF msqrt vpc A B)

/-- Source local nxPx. -/
def nxPxF (msqrt : ℚ → ℚ) (rX : ℚ) (vpc : ViewportCells) (A B : OrbF) : FVal :=
  fmul (nxCellF msqrt rX vpc A B) (fin vpc.cellSizeXPx)

/-- Source local nyPx. -/
def nyPxF (msqrt : ℚ → ℚ) (rY : ℚ) (vpc : ViewportCells) (A B : OrbF) : FVal :=
  fmul (nyCellF msqrt rY vpc A B) (fin vpc.cellSizeYPx)

/-- Source local nzPx, kept in layer units. -/
def nzPxF (msqrt : ℚ → ℚ) (rZ : ℚ) (vpc : ViewportCells) (A B : OrbF) : FVal :=
  nzCellF msqrt rZ vpc A B

/-- Source local lenPx. -/
def lenPxF (msqrt : ℚ → ℚ) (rX rY rZ : ℚ) (vpc : ViewportCells) (A B : OrbF) : FVal :=
  fsqrt msqrt (fadd (fadd (fmul (nxPxF msqrt rX vpc A B) (nxPxF msqrt rX vpc A B))
    (fmul (nyPxF msqrt rY vpc A B) (nyPxF msqrt rY vpc A B)))
    (fmul (nzPxF msqrt rZ vpc A B) (nzPxF msqrt rZ vpc A B)))

/-- Source local nx: the normalised pixel-space normal X. -/
def nxF (msqrt : ℚ → ℚ) (rX rY rZ : ℚ) (vpc : ViewportCells) (A B : OrbF) : FVal :=
  if flt (fin 0.001) (lenPxF msqrt rX rY rZ vpc A B) then
    fdiv (nxPxF msqrt rX vpc A B) (lenPxF msqrt rX rY rZ vpc A B)
  else fin 0

/-- Source local ny. -/
def nyF (msqrt : ℚ → ℚ) (rX rY rZ : ℚ) (vpc : ViewportCells) (A B : OrbF) : FVal :=
  if flt (fin 0.001) (lenPxF msqrt rX rY rZ vpc A B) then
    fdiv (nyPxF msqrt rY vpc A B) (lenPxF msqrt rX rY rZ vpc A B)
  else fin 0

/-- Source local nz. -/
def nzF (msqrt : ℚ → ℚ) (rX rY rZ : ℚ) (vpc : ViewportCells) (A B : OrbF) : FVal :=
  if flt (fin 0.001) (lenPxF msqrt rX rY rZ vpc A B) then
    fdiv (nzPxF msqrt rZ vpc A B) (lenPxF msqrt rX rY rZ vpc A B)
  else fin 0

/-- Source local overlap. -/
def overlapF (msqrt : ℚ → ℚ) (vpc : ViewportCells) (A B : OrbF) : FVal :=
  fsub (fin (minDistF A B)) (distF msqrt vpc A B)

/-- Source local overlapRatio. -/
def overlapFracF (msqrt : ℚ → ℚ) (vpc : ViewportCells) (A B : OrbF) : FVal :=
  if flt (fin 0) (overlapF msqrt vpc A B) then
    fdiv (overlapF msqrt vpc A B) (fin (minDistF A B))
  else fin 0

/-- Source local separationA. -/
def separationAF (msqrt : ℚ → ℚ) (vpc : ViewportCells) (A B : OrbF) : FVal :=
  fmul (fdiv (fmul (overlapF msqrt vpc A B) (fin (B.size : ℚ)))
      (fin ((A.size : ℚ) + (B.size : ℚ))))
    (fadd (fin 1.2) (fmul (fin 0.8) (overlapFracF msqrt vpc A B)))

/-- Source local separationB. -/
def separationBF (msqrt : ℚ → ℚ) (vpc : ViewportCells) (A B : OrbF) : FVal :=
  fmul (fdiv (fmul (overlapF msqrt vpc A B) (fin (A.size : ℚ)))
      (fin ((A.size : ℚ) + (B.size : ℚ))))
    (fadd (fin 1.2) (fmul (fin 0.8) (overlapFracF msqrt vpc A B)))

/-- The finiteness guard of the position-correction update: every applied
separation value and cell-space normal component must be finite. -/
def posGuardF (msqrt : ℚ → ℚ) (rX rY rZ : ℚ) (vpc : ViewportCells) (A B : OrbF) : Bool :=
  fIsFinite (separationAF msqrt vpc A B) && fIsFinite (separationBF msqrt vpc A B) &&
    fIsFinite (nxCellF msqrt rX vpc A B) && fIsFinite (nyCellF msqrt rY vpc A B) &&
    fIsFinite (nzCellF msqrt rZ vpc A B)

/-- Orb A after the guarded position correction. -/
def posCorrAF (msqrt : ℚ → ℚ) (rX rY rZ : ℚ) (vpc : ViewportCells) (A B : OrbF) : OrbF :=
  if flt (fin 0) (overlapF msqrt vpc A B) then
    if posGuardF msqrt rX rY rZ vpc A B then
      { A with
        pxX := fsub A.pxX (fmul (fmul (nxCellF msqrt rX vpc A B) (separationAF msqrt vpc A B))
          (fin vpc.cellSizeXPx))
        pxY := fsub A.pxY (fmul (fmul (nyCellF msqrt rY vpc A B) (separationAF msqrt vpc A B))
          (fin vpc.cellSizeYPx))
        z := fsub A.z (fmul (nzCellF msqrt rZ vpc A B) (separationAF msqrt vpc A B)) }
    else A
  else A

/-- Orb B after the guarded position correction. -/
def posCorrBF (msqrt : ℚ → ℚ) (rX rY rZ : ℚ) (vpc : ViewportCells) (A B : OrbF) : OrbF :=
  if flt (fin 0) (overlapF msqrt vpc A B) then
    if posGuardF msqrt rX rY rZ vpc A B then
      { B with
        pxX := fadd B.pxX (fmul (fmul (nxCellF msqrt rX vpc A B) (separationBF msqrt vpc A B))
          (fin vpc.cellSizeXPx))
        pxY := fadd B.pxY (fmul (fmul (nyCellF msqrt rY vpc A B) (separationBF msqrt vpc A B))
          (fin vpc.cellSizeYPx))
        z := fadd B.z (fmul (nzCellF msqrt rZ vpc A B) (separationBF msqrt vpc A B)) }
    else B
  else B

/-- Source local dvn. -/
def dvnF (msqrt : ℚ → ℚ) (rX rY rZ : ℚ) (vpc : ViewportCells) (A B : OrbF) : FVal :=
  fadd (fadd (fmul (fsub A.vx B.vx) (nxF msqrt rX rY rZ vpc A B))
    (fmul (fsub A.vy B.vy) (nyF msqrt rX rY rZ vpc A B)))
    (fmul (fsub A.vz B.vz) (nzF msqrt rX rY rZ vpc A B))

/-- Source local impulseA of the approaching branch. -/
def impulseAF (msqrt : ℚ → ℚ) (rX rY rZ : ℚ) (vpc : ViewportCells) (A B : OrbF) : FVal :=
  fmul (fdiv (fmul (fin 0.8) (fin (B.size : ℚ))) (fin ((A.size : ℚ) + (B.size : ℚ))))
    (dvnF msqrt rX rY rZ vpc A B)

/-- Source local impulseB of the approaching branch. -/
def impulseBF (msqrt : ℚ → ℚ) (rX rY rZ : ℚ) (vpc : ViewportCells) (A B : OrbF) : FVal :=
  fmul (fdiv (fmul (fin 0.8) (fin (A.size : ℚ))) (fin ((A.size : ℚ) + (B.size : ℚ))))
    (dvnF msqrt rX rY rZ vpc A B)

/-- Source local impulseA of the stuck branch. -/
def minImpulseAF (msqrt : ℚ → ℚ) (vpc : ViewportCells) (A B : OrbF) : FVal :=
  fmul (fmul (fin 20) (overlapFracF msqrt vpc A B))
    (fdiv (fin (B.size : ℚ)) (fin ((A.size : ℚ) + (B.size : ℚ))))

/-- Source local impulseB of the stuck branch. -/
def minImpulseBF (msqrt : ℚ → ℚ) (vpc : ViewportCells) (A B : OrbF) : FVal :=
  fmul (fmul (fin 20) (overlapFracF msqrt vpc A B))
    (fdiv (fin (A.size : ℚ)) (fin ((A.size : ℚ) + (B.size : ℚ))))

/-- The loop body of OrbOrbCollision.resolveCollisions over possibly
non-finite values, with every isFinite guard of the source in place. -/
def resolveCollisionsPairF (msqrt : ℚ → ℚ) (matan2 : FVal → FVal → FVal) (rX rY rZ : ℚ)
    (vpc : ViewportCells) (orbA orbB : OrbF) : OrbF × OrbF :=
  if flt (distSqF vpc orbA orbB) (fin (minDistF orbA orbB * minDistF orbA orbB)) then
    let a1 := posCorrAF msqrt rX rY rZ vpc orbA orbB
    let b1 := posCorrBF msqrt rX rY rZ vpc orbA orbB
    if flt (fin 0) (dvnF msqrt rX rY rZ vpc orbA orbB) &&
        fIsFinite (dvnF msqrt rX rY rZ vpc orbA orbB) then
      if fIsFinite (impulseAF msqrt rX rY rZ vpc orbA orbB) &&
          fIsFinite (impulseBF msqrt rX rY rZ vpc orbA orbB) then
        let a2 := { a1 with
          vx := fsub a1.vx (fmul (impulseAF msqrt rX rY rZ vpc orbA orbB) (nxF msqrt rX rY rZ vpc orbA orbB))
          vy := fsub a1.vy (fmul (impulseAF msqrt rX rY rZ vpc orbA orbB) (nyF msqrt rX rY rZ vpc orbA orbB))
          vz := fsub a1.vz (fmul (impulseAF msqrt rX rY rZ vpc orbA orbB) (nzF msqrt rX rY rZ vpc orbA orbB)) }
        let b2 := { b1 with
          vx := fadd b1.vx (fmul (impulseBF msqrt rX rY rZ vpc orbA orbB) (nxF msqrt rX rY rZ vpc orbA orbB))
          vy := fadd b1.vy (fmul (impulseBF msqrt rX rY rZ vpc orbA orbB) (nyF msqrt rX rY rZ vpc orbA orbB))
          vz := fadd b1.vz (fmul (impulseBF msqrt rX rY rZ vpc orbA orbB) (nzF msqrt rX rY rZ vpc orbA orbB)) }
        ({ a2 with angle := matan2 a2.vy a2.vx }, { b2 with angle := matan2 b2.vy b2.vx })
      else
        ({ a1 with angle := matan2 a1.vy a1.vx }, { b1 with angle := matan2 b1.vy b1.vx })
    else if flt (fin 0.3) (overlapFracF msqrt vpc orbA orbB) then
      if fIsFinite (minImpulseAF msqrt vpc orbA orbB) &&
          fIsFinite (minImpulseBF msqrt vpc orbA orbB) then
        let a2 := { a1 with
          vx := fsub a1.vx (fmul (minImpulseAF msqrt vpc orbA orbB) (nxF msqrt rX rY rZ vpc orbA orbB))
          vy := fsub a1.vy (fmul (minImpulseAF msqrt vpc orbA orbB) (nyF msqrt rX rY rZ vpc orbA orbB))
          vz := fsub a1.vz (fmul (fmul (minImpulseAF msqrt vpc orbA orbB) (nzF msqrt rX rY rZ vpc orbA orbB)) (fin 0.05)) }
        let b2 := { b1 with
          vx := fadd b1.vx (fmul (minImpulseBF msqrt vpc orbA orbB) (nxF msqrt rX rY rZ vpc orbA orbB))
          vy := fadd b1.vy (fmul (minImpulseBF msqrt vpc orbA orbB) (nyF msqrt rX rY rZ vpc orbA orbB))
          vz := fadd b1.vz (fmul (fmul (minImpulseBF msqrt vpc orbA orbB) (nzF msqrt rX rY rZ vpc orbA orbB)) (fin 0.05)) }
        ({ a2 with angle := matan2 a2.vy a2.vx }, { b2 with angle := matan2 b2.vy b2.vx })
      else
        ({ a1 with angle := matan2 a1.vy a1.vx }, { b1 with angle := matan2 b1.vy b1.vx })
    else
      ({ a1 with angle := matan2 a1.vy a1.vx }, { b1 with angle := matan2 b1.vy b1.vx })
  else (orbA, orbB)

end OrbOrbCollisionF

/-- The continuous-spawn target count from the OrbField controller:
Math.max(minOrbCount, Math.round(targetOrbCountAt4K * screenArea /
referenceScreenArea)). -/
def targetOrbCount (targetOrbCountAt4K referenceScreenArea : ℚ) (minOrbCount : ℤ)
    (width height : ℚ) : ℤ :=
  let screenArea := width * height
  let areaScale := screenArea / referenceScreenArea
  let scaledCount := jsRound (targetOrbCountAt4K * areaScale)
  max minOrbCount scaledCount

/-! ### Concrete inputs used by the witness and counterexample theorems -/

/-- An empty 11 by 11 by 11 grid. -/
def gridZero : SpatialGrid :=
  { cellsX := 11, cellsY := 11, layers := 11, cells := fun _ _ _ => 0 }

/-- A 16 by 16 by 3 grid whose only occupied cell is (7, 7, 1), carrying
FILLED. -/
def gridDiag : SpatialGrid :=
  { cellsX := 16, cellsY := 16, layers := 3
    cells := fun x y l => if x = 7 ∧ y = 7 ∧ l = 1 then 2 else 0 }

/-- A stationary size-1 orb whose centre cell is (5, 5, 5) under unit cell
size. -/
def orbSize1 : Orb :=
  { pxX := 5, pxY := 5, z := 5, vx := 0, vy := 0, vz := 0, speed := 0, angle := 0, size := 1 }

/-- A stationary size-2 orb whose centre cell is (5, 5, 5) under unit cell
size. -/
def orbSize2 : Orb :=
  { pxX := 5, pxY := 5, z := 5, vx := 0, vy := 0, vz := 0, speed := 0, angle := 0, size := 2 }

/-- A size-2 orb at cell (5, 5, 1) moving diagonally two cells per second
in X and Y. -/
def orbMove2 : Orb :=
  { pxX := 5, pxY := 5, z := 1, vx := 2, vy := 2, vz := 0, speed := 0, angle := 0, size := 2 }

/-- Viewport metrics with unit cells and no viewport offset. -/
def vpcUnit : ViewportCells :=
  { startCellX := 0, startCellY := 0, cellSizeXPx := 1, cellSizeYPx := 1
    invCellSizeXPx := 1, invCellSizeYPx := 1 }

/-- A square-root oracle that is exact on the values arising in the
collision witnesses. -/
def msqrtW : ℚ → ℚ := fun q =>
  if q = 9 / 25 then 3 / 5 else if q = 1 then 1 else 0

/-- An atan2 oracle returning zero; the verified claims do not constrain
the angle field. -/
def matan2W : ℚ → ℚ → ℚ := fun _ _ => 0

/-- Orb A of the head-on collision witness: size 1 at the origin moving
right at 10 px/s. -/
def orbHeadA : Orb :=
  { pxX := 0, pxY := 0, z := 0, vx := 10, vy := 0, vz := 0, speed := 10, angle := 0, size := 1 }

/-- Orb B of the head-on collision witness: size 1 at x = 0.6 moving left
at 10 px/s. -/
def orbHeadB : Orb :=
  { pxX := 3 / 5, pxY := 0, z := 0, vx := -10, vy := 0, vz := 0, speed := 10, angle := 0, size := 1 }

/-- A square-root oracle exact on the values arising in the speed-limit
witness. -/
def msqrtW4 : ℚ → ℚ := fun q =>
  if q = 10000 then 100 else if q = 1 then 1 else if q = 36481 / 4 then 191 / 2 else 0

/-- A power oracle mapping every base to itself, exact when the exponent
is 1 as in the speed-limit witness where deltaTime * 60 = 1. -/
def mpowW : ℚ → ℚ → ℚ := fun a _ => a

/-- A fast orb: size 1 moving at 100 px/s along X. -/
def orbFast : Orb :=
  { pxX := 0, pxY := 0, z := 0, vx := 100, vy := 0, vz := 0, speed := 100, angle := 0, size := 1 }

/-- An atan2 oracle over possibly non-finite values returning zero. -/
def matan2WF : OrbOrbCollisionF.FVal → OrbOrbCollisionF.FVal → OrbOrbCollisionF.FVal :=
  fun _ _ => OrbOrbCollisionF.fin 0

/-- A size-1 orb in the possibly non-finite model whose X position is
non-finite. -/
def orbFNan : OrbOrbCollisionF.OrbF :=
  { pxX := none, pxY := OrbOrbCollisionF.fin 0, z := OrbOrbCollisionF.fin 0
    vx := OrbOrbCollisionF.fin 0, vy := OrbOrbCollisionF.fin 0
    vz := OrbOrbCollisionF.fin 0, angle := OrbOrbCollisionF.fin 0, size := 1 }

/-- A size-1 orb in the possibly non-finite model with every field zero. -/
def orbFZero : OrbOrbCollisionF.OrbF :=
  { pxX := OrbOrbCollisionF.fin 0, pxY := OrbOrbCollisionF.fin 0
    z := OrbOrbCollisionF.fin 0, vx := OrbOrbCollisionF.fin 0
    vy := OrbOrbCollisionF.fin 0, vz := OrbOrbCollisionF.fin 0
    angle := OrbOrbCollisionF.fin 0, size := 1 }

/-- A degenerate size-0 orb moving at 1 px/s, used to exhibit a
non-finite impulse (division by the zero mass sum). -/
def orbFSize0A : OrbOrbCollisionF.OrbF :=
  { pxX := OrbOrbCollisionF.fin 0, pxY := OrbOrbCollisionF.fin 0
    z := OrbOrbCollisionF.fin 0, vx := OrbOrbCollisionF.fin 1
    vy := OrbOrbCollisionF.fin 0, vz := OrbOrbCollisionF.fin 0
    angle := OrbOrbCollisionF.fin 0, size := 0 }

/-- A stationary degenerate size-0 orb. -/
def orbFSize0B : OrbOrbCollisionF.OrbF :=
  { pxX := OrbOrbCollisionF.fin 0, pxY := OrbOrbCollisionF.fin 0
    z := OrbOrbCollisionF.fin 0, vx := OrbOrbCollisionF.fin 0
    vy := OrbOrbCollisionF.fin 0, vz := OrbOrbCollisionF.fin 0
    angle := OrbOrbCollisionF.fin 0, size := 0 }

/-- The body condition of the source loops: an offset lies in the spherical
body of an orb of the given size when its squared length is at most the
squared body radius size - 1. -/
def bodyCond (size : ℕ) (d : ℤ × ℤ × ℤ) : Prop :=
  sqLen d ≤ ((size : ℤ) - 1) * ((size : ℤ) - 1)

/-- The shell condition of the source loops: an offset lies in the
avoidance shell when its squared length is above the squared body radius
and at most the squared avoidance radius. -/
def shellCond (size : ℕ) (d : ℤ × ℤ × ℤ) : Prop :=
  ((size : ℤ) - 1) * ((size : ℤ) - 1) < sqLen d ∧
    sqLen d ≤ (OrbPhysics.avoidanceRadius size : ℤ) * (OrbPhysics.avoidanceRadius size : ℤ)

instance (size : ℕ) (d : ℤ × ℤ × ℤ) : Decidable (bodyCond size d) := by
  unfold bodyCond
  infer_instance

instance (size : ℕ) (d : ℤ × ℤ × ℤ) : Decidable (shellCond size d) := by
  unfold shellCond
  infer_instance

/-! ### Bit-flag lemmas -/

lemma hasCellFlag_two_pow (v i : ℕ) : SharedTypes.hasCellFlag v (2 ^ i) = v.testBit i := by
  unfold SharedTypes.hasCellFlag
  rw [Nat.and_two_pow]
  cases h : v.testBit i
  · simp [h]
  · simp only [h, Bool.toNat_true, one_mul, ne_eq, decide_eq_true_eq]
    exact (Nat.two_pow_pos i).ne'

lemma hasCellFlag_addCellFlag_self (v i : ℕ) :
    SharedTypes.hasCellFlag (SharedTypes.addCellFlag v (2 ^ i)) (2 ^ i) = true := by
  simp [hasCellFlag_two_pow, SharedTypes.addCellFlag, Nat.testBit_lor, Nat.testBit_two_pow]

lemma hasCellFlag_addCellFlag_other (v : ℕ) {i j : ℕ} (h : j ≠ i) :
    SharedTypes.hasCellFlag (SharedTypes.addCellFlag v (2 ^ j)) (2 ^ i) =
      SharedTypes.hasCellFlag v (2 ^ i) := by
  simp [hasCellFlag_two_pow, SharedTypes.addCellFlag, Nat.testBit_lor, Nat.testBit_two_pow, h]

lemma hasCellFlag_removeCellFlag_self (v i : ℕ) :
    SharedTypes.hasCellFlag (SharedTypes.removeCellFlag v (2 ^ i)) (2 ^ i) = false := by
  simp [hasCellFlag_two_pow, SharedTypes.removeCellFlag, Nat.testBit_ldiff, Nat.testBit_two_pow]

lemma hasCellFlag_removeCellFlag_other (v : ℕ) {i j : ℕ} (h : j ≠ i) :
    SharedTypes.hasCellFlag (SharedTypes.removeCellFlag v (2 ^ j)) (2 ^ i) =
      SharedTypes.hasCellFlag v (2 ^ i) := by
  simp [hasCellFlag_two_pow, SharedTypes.removeCellFlag, Nat.testBit_ldiff, Nat.testBit_two_pow, h]

lemma removeCellFlag_addCellFlag_cancel (v : ℕ) {i : ℕ}
    (h : SharedTypes.hasCellFlag v (2 ^ i) = false) :
    SharedTypes.removeCellFlag (SharedTypes.addCellFlag v (2 ^ i)) (2 ^ i) = v := by
  rw [hasCellFlag_two_pow] at h
  refine Nat.eq_of_testBit_eq fun k => ?_
  simp only [SharedTypes.removeCellFlag, SharedTypes.addCellFlag, Nat.testBit_ldiff,
    Nat.testBit_lor, Nat.testBit_two_pow]
  by_cases hk : i = k
  · subst hk
    simp [h]
  · simp [hk]

lemma addCellFlag_idem (v f : ℕ) :
    SharedTypes.addCellFlag (SharedTypes.addCellFlag v f) f = SharedTypes.addCellFlag v f := by
  refine Nat.eq_of_testBit_eq fun k => ?_
  simp only [SharedTypes.addCellFlag, Nat.testBit_lor]
  cases v.testBit k <;> cases f.testBit k <;> rfl

lemma removeCellFlag_idem (v f : ℕ) :
    SharedTypes.removeCellFlag (SharedTypes.removeCellFlag v f) f =
      SharedTypes.removeCellFlag v f := by
  refine Nat.eq_of_testBit_eq fun k => ?_
  simp only [SharedTypes.removeCellFlag, Nat.testBit_ldiff]
  cases v.testBit k <;> cases f.testBit k <;> rfl

/-! ### Grid point-update and fold lemmas -/

lemma modifyCell_cellsX (g : SpatialGrid) (x y l : ℤ) (u : ℕ → ℕ) :
    (g.modifyCell x y l u).cellsX = g.cellsX := by
  unfold SpatialGrid.modifyCell
  split <;> rfl

lemma modifyCell_cellsY (g : SpatialGrid) (x y l : ℤ) (u : ℕ → ℕ) :
    (g.modifyCell x y l u).cellsY = g.cellsY := by
  unfold SpatialGrid.modifyCell
  split <;> rfl

lemma modifyCell_layers (g : SpatialGrid) (x y l : ℤ) (u : ℕ → ℕ) :
    (g.modifyCell x y l u).layers = g.layers := by
  unfold SpatialGrid.modifyCell
  split <;> rfl

lemma inBounds_modifyCell (g : SpatialGrid) (x y l : ℤ) (u : ℕ → ℕ) (a b c : ℤ) :
    (g.modifyCell x y l u).inBounds a b c ↔ g.inBounds a b c := by
  unfold SpatialGrid.inBounds
  rw [modifyCell_cellsX, modifyCell_cellsY, modifyCell_layers]

lemma modifyCell_cells (g : SpatialGrid) (x y l : ℤ) (u : ℕ → ℕ) (a b c : ℤ) :
    (g.modifyCell x y l u).cells a b c =
      if a = x ∧ b = y ∧ c = l ∧ g.inBounds x y l then u (g.cells a b c)
      else g.cells a b c := by
  unfold SpatialGrid.modifyCell
  by_cases hin : g.inBounds x y l
  · rw [if_pos hin]
    by_cases heq : a = x ∧ b = y ∧ c = l
    · simp [heq, hin]
    · simp only [SpatialGrid.cells]
      rw [if_neg heq, if_neg (by tauto)]
  · rw [if_neg hin, if_neg (by tauto)]

/-- One conditional point-update pass over a list of offsets: value of the
resulting grid at one cell. -/
lemma cells_foldl_modify (L : List (ℤ × ℤ × ℤ)) (C : ℤ × ℤ × ℤ → Prop) [DecidablePred C]
    (u : ℕ → ℕ) (hu : ∀ v, u (u v) = u v) (g : SpatialGrid) (cx cy cl x y l : ℤ) :
    (L.foldl (fun g2 d =>
        if C d then g2.modifyCell (cx + d.1) (cy + d.2.1) (cl + d.2.2) u else g2) g).cells x y l =
      if (x - cx, y - cy, l - cl) ∈ L ∧ C (x - cx, y - cy, l - cl) ∧ g.inBounds x y l then
        u (g.cells x y l)
      else g.cells x y l := by
  induction L generalizing g with
  | nil => simp
  | cons d L ih =>
    rw [List.foldl_cons, ih]
    by_cases hCd : C d
    · rw [if_pos hCd]
      by_cases hres : (x - cx, y - cy, l - cl) = d
      · have hco : x = cx + d.1 ∧ y = cy + d.2.1 ∧ l = cl + d.2.2 := by
          obtain ⟨d1, d2, d3⟩ := d
          simp only [Prod.mk.injEq] at hres
          refine ⟨?_, ?_, ?_⟩ <;> dsimp only <;> omega
        by_cases hin : g.inBounds x y l
        · have hin2 : g.inBounds (cx + d.1) (cy + d.2.1) (cl + d.2.2) := by
            rw [← hco.1, ← hco.2.1, ← hco.2.2]
            exact hin
          have hcell : (g.modifyCell (cx + d.1) (cy + d.2.1) (cl + d.2.2) u).cells x y l =
              u (g.cells x y l) := by
            rw [modifyCell_cells]
            rw [if_pos ⟨hco.1, hco.2.1, hco.2.2, hin2⟩]
          rw [hcell]
          by_cases hmem : (x - cx, y - cy, l - cl) ∈ L
          · rw [if_pos ⟨hmem, by rw [hres]; exact hCd,
              (inBounds_modifyCell g _ _ _ u x y l).mpr hin⟩, hu]
            rw [if_pos ⟨List.mem_cons_of_mem d hmem, by rw [hres]; exact hCd, hin⟩]
          · rw [if_neg (by
              intro hc
              rcases hc with ⟨h1, _, _⟩
              exact hmem h1)]
            rw [if_pos ⟨by rw [hres]; exact List.mem_cons_self d L, by rw [hres]; exact hCd, hin⟩]
        · have hin2 : ¬ g.inBounds (cx + d.1) (cy + d.2.1) (cl + d.2.2) := by
            rw [← hco.1, ← hco.2.1, ← hco.2.2]
            exact hin
          have hcell : (g.modifyCell (cx + d.1) (cy + d.2.1) (cl + d.2.2) u).cells x y l =
              g.cells x y l := by
            rw [modifyCell_cells]
            rw [if_neg (by tauto)]
          rw [hcell]
          rw [if_neg (by
            intro hc
            exact hin ((inBounds_modifyCell g _ _ _ u x y l).mp hc.2.2))]
          rw [if_neg (by tauto)]
      · have hcell : (g.modifyCell (cx + d.1) (cy + d.2.1) (cl + d.2.2) u).cells x y l =
            g.cells x y l := by
          rw [modifyCell_cells]
          rw [if_neg (by
            intro hc
            apply hres
            obtain ⟨d1, d2, d3⟩ := d
            dsimp only at hc
            simp only [Prod.mk.injEq]
            refine ⟨?_, ?_, ?_⟩ <;> omega)]
        rw [hcell]
        have hmem : ((x - cx, y - cy, l - cl) ∈ d :: L) ↔ ((x - cx, y - cy, l - cl) ∈ L) := by
          rw [List.mem_cons]
          refine ⟨fun h => h.resolve_left hres, fun h => Or.inr h⟩
        have hbnd := inBounds_modifyCell g (cx + d.1) (cy + d.2.1) (cl + d.2.2) u x y l
        by_cases hc : (x - cx, y - cy, l - cl) ∈ L ∧ C (x - cx, y - cy, l - cl) ∧ g.inBounds x y l
        · rw [if_pos ⟨hc.1, hc.2.1, hbnd.mpr hc.2.2⟩, if_pos ⟨hmem.mpr hc.1, hc.2⟩]
        · rw [if_neg (by
            intro hcc
            exact hc ⟨hcc.1, hcc.2.1, hbnd.mp hcc.2.2⟩)]
          rw [if_neg (by
            intro hcc
            exact hc ⟨hmem.mp hcc.1, hcc.2⟩)]
    · rw [if_neg hCd]
      by_cases hres : (x - cx, y - cy, l - cl) = d
      · rw [if_neg (by
          intro hc
          rw [hres] at hc
          exact hCd hc.2.1)]
        rw [if_neg (by
          intro hc
          rw [hres] at hc
          exact hCd hc.2.1)]
      · have hmem : ((x - cx, y - cy, l - cl) ∈ d :: L) ↔ ((x - cx, y - cy, l - cl) ∈ L) := by
          rw [List.mem_cons]
          refine ⟨fun h => h.resolve_left hres, fun h => Or.inr h⟩
        by_cases hc : (x - cx, y - cy, l - cl) ∈ L ∧ C (x - cx, y - cy, l - cl) ∧
            g.inBounds x y l
        · rw [if_pos hc, if_pos ⟨hmem.mpr hc.1, hc.2⟩]
        · rw [if_neg hc, if_neg (fun hcc => hc ⟨hmem.mp hcc.1, hcc.2⟩)]

lemma foldl_modify_cellsX (L : List (ℤ × ℤ × ℤ)) (C : ℤ × ℤ × ℤ → Prop) [DecidablePred C]
    (u : ℕ → ℕ) (g : SpatialGrid) (cx cy cl : ℤ) :
    (L.foldl (fun g2 d =>
        if C d then g2.modifyCell (cx + d.1) (cy + d.2.1) (cl + d.2.2) u else g2) g).cellsX =
      g.cellsX := by
  induction L generalizing g with
  | nil => rfl
  | cons d L ih =>
    rw [List.foldl_cons, ih]
    by_cases hCd : C d
    · rw [if_pos hCd, modifyCell_cellsX]
    · rw [if_neg hCd]

lemma foldl_modify_cellsY (L : List (ℤ × ℤ × ℤ)) (C : ℤ × ℤ × ℤ → Prop) [DecidablePred C]
    (u : ℕ → ℕ) (g : SpatialGrid) (cx cy cl : ℤ) :
    (L.foldl (fun g2 d =>
        if C d then g2.modifyCell (cx + d.1) (cy + d.2.1) (cl + d.2.2) u else g2) g).cellsY =
      g.cellsY := by
  induction L generalizing g with
  | nil => rfl
  | cons d L ih =>
    rw [List.foldl_cons, ih]
    by_cases hCd : C d
    · rw [if_pos hCd, modifyCell_cellsY]
    · rw [if_neg hCd]

lemma foldl_modify_layers (L : List (ℤ × ℤ × ℤ)) (C : ℤ × ℤ × ℤ → Prop) [DecidablePred C]
    (u : ℕ → ℕ) (g : SpatialGrid) (cx cy cl : ℤ) :
    (L.foldl (fun g2 d =>
        if C d then g2.modifyCell (cx + d.1) (cy + d.2.1) (cl + d.2.2) u else g2) g).layers =
      g.layers := by
  induction L generalizing g with
  | nil => rfl
  | cons d L ih =>
    rw [List.foldl_cons, ih]
    by_cases hCd : C d
    · rw [if_pos hCd, modifyCell_layers]
    · rw [if_neg hCd]

lemma inBounds_foldl_modify (L : List (ℤ × ℤ × ℤ)) (C : ℤ × ℤ × ℤ → Prop) [DecidablePred C]
    (u : ℕ → ℕ) (g : SpatialGrid) (cx cy cl x y l : ℤ) :
    (L.foldl (fun g2 d =>
        if C d then g2.modifyCell (cx + d.1) (cy + d.2.1) (cl + d.2.2) u else g2) g).inBounds
        x y l ↔ g.inBounds x y l := by
  unfold SpatialGrid.inBounds
  rw [foldl_modify_cellsX, foldl_modify_cellsY, foldl_modify_layers]

/-! ### Offset cube membership -/

lemma mem_offsets {a : ℕ} {t : ℤ} : t ∈ offsets a ↔ -(a : ℤ) ≤ t ∧ t ≤ (a : ℤ) := by
  constructor
  · intro ht
    obtain ⟨i, hi, hv⟩ := List.mem_map.mp ht
    rw [List.mem_range] at hi
    omega
  · intro h
    exact List.mem_map.mpr ⟨(t + a).toNat, List.mem_range.mpr (by omega), by omega⟩

lemma mem_cellTriples {a : ℕ} {d : ℤ × ℤ × ℤ} :
    d ∈ cellTriples a ↔
      (-(a : ℤ) ≤ d.1 ∧ d.1 ≤ (a : ℤ)) ∧ (-(a : ℤ) ≤ d.2.1 ∧ d.2.1 ≤ (a : ℤ)) ∧
        (-(a : ℤ) ≤ d.2.2 ∧ d.2.2 ≤ (a : ℤ)) := by
  obtain ⟨dx, dy, dz⟩ := d
  constructor
  · intro hd
    obtain ⟨z1, hz1, hrest⟩ := List.mem_flatMap.mp hd
    obtain ⟨y1, hy1, hrest2⟩ := List.mem_flatMap.mp hrest
    obtain ⟨x1, hx1, heq⟩ := List.mem_map.mp hrest2
    rw [mem_offsets] at hz1 hy1 hx1
    simp only [Prod.mk.injEq] at heq
    obtain ⟨e1, e2, e3⟩ := heq
    subst e1
    subst e2
    subst e3
    refine ⟨?_, ?_, ?_⟩ <;> dsimp only <;> omega
  · intro hb
    obtain ⟨hx, hy, hz⟩ := hb
    dsimp only at hx hy hz
    exact List.mem_flatMap.mpr ⟨dz, mem_offsets.mpr ⟨hz.1, hz.2⟩,
      List.mem_flatMap.mpr ⟨dy, mem_offsets.mpr ⟨hy.1, hy.2⟩,
        List.mem_map.mpr ⟨dx, mem_offsets.mpr ⟨hx.1, hx.2⟩, rfl⟩⟩⟩

lemma mem_cellTriples_mono {a b : ℕ} (hab : a ≤ b) {d : ℤ × ℤ × ℤ}
    (hd : d ∈ cellTriples a) : d ∈ cellTriples b := by
  rw [mem_cellTriples] at hd ⊢
  omega

/-! ### Characterisation of the circular mark and clear passes -/

lemma markOrbCircular_cells (g : SpatialGrid) (orb : Orb) (sx sy : ℤ) (ix iy : ℚ)
    (x y l : ℤ) :
    (OrbPhysics.markOrbCircular g orb sx sy ix iy).cells x y l =
      (if (x - toCell orb.pxX ix sx, y - toCell orb.pxY iy sy, l - jsRound orb.z) ∈
           cellTriples (orb.size - 1) ∧
           bodyCond orb.size (x - toCell orb.pxX ix sx, y - toCell orb.pxY iy sy,
             l - jsRound orb.z) ∧ g.inBounds x y l
       then SharedTypes.addCellFlag
         (if (x - toCell orb.pxX ix sx, y - toCell orb.pxY iy sy, l - jsRound orb.z) ∈
             cellTriples (OrbPhysics.avoidanceRadius orb.size) ∧
             shellCond orb.size (x - toCell orb.pxX ix sx, y - toCell orb.pxY iy sy,
               l - jsRound orb.z) ∧ g.inBounds x y l
          then SharedTypes.addCellFlag (g.cells x y l) SharedTypes.CELL_PROXIMITY
          else g.cells x y l) SharedTypes.CELL_FILLED
       else
         if (x - toCell orb.pxX ix sx, y - toCell orb.pxY iy sy, l - jsRound orb.z) ∈
             cellTriples (OrbPhysics.avoidanceRadius orb.size) ∧
             shellCond orb.size (x - toCell orb.pxX ix sx, y - toCell orb.pxY iy sy,
               l - jsRound orb.z) ∧ g.inBounds x y l
         then SharedTypes.addCellFlag (g.cells x y l) SharedTypes.CELL_PROXIMITY
         else g.cells x y l) := by
  simp only [OrbPhysics.markOrbCircular, SpatialGrid.addCellFlag]
  rw [cells_foldl_modify _ _ _ (fun v => addCellFlag_idem v _)]
  rw [cells_foldl_modify _ _ _ (fun v => addCellFlag_idem v _)]
  simp only [inBounds_foldl_modify]
  rfl

lemma clearOrbCircular_cells (g : SpatialGrid) (orb : Orb) (sx sy : ℤ) (ix iy : ℚ)
    (x y l : ℤ) :
    (OrbPhysics.clearOrbCircular g orb sx sy ix iy).cells x y l =
      (if (x - toCell orb.pxX ix sx, y - toCell orb.pxY iy sy, l - jsRound orb.z) ∈
           cellTriples (orb.size - 1) ∧
           bodyCond orb.size (x - toCell orb.pxX ix sx, y - toCell orb.pxY iy sy,
             l - jsRound orb.z) ∧ g.inBounds x y l
       then SharedTypes.removeCellFlag
         (if (x - toCell orb.pxX ix sx, y - toCell orb.pxY iy sy, l - jsRound orb.z) ∈
             cellTriples (OrbPhysics.avoidanceRadius orb.size) ∧
             shellCond orb.size (x - toCell orb.pxX ix sx, y - toCell orb.pxY iy sy,
               l - jsRound orb.z) ∧ g.inBounds x y l
          then SharedTypes.removeCellFlag (g.cells x y l) SharedTypes.CELL_PROXIMITY
          else g.cells x y l) SharedTypes.CELL_FILLED
       else
         if (x - toCell orb.pxX ix sx, y - toCell orb.pxY iy sy, l - jsRound orb.z) ∈
             cellTriples (OrbPhysics.avoidanceRadius orb.size) ∧
             shellCond orb.size (x - toCell orb.pxX ix sx, y - toCell orb.pxY iy sy,
               l - jsRound orb.z) ∧ g.inBounds x y l
         then SharedTypes.removeCellFlag (g.cells x y l) SharedTypes.CELL_PROXIMITY
         else g.cells x y l) := by
  simp only [OrbPhysics.clearOrbCircular, SpatialGrid.removeCellFlag]
  rw [cells_foldl_modify _ _ _ (fun v => removeCellFlag_idem v _)]
  rw [cells_foldl_modify _ _ _ (fun v => removeCellFlag_idem v _)]
  simp only [inBounds_foldl_modify]
  rfl

lemma inBounds_markOrbCircular (g : SpatialGrid) (orb : Orb) (sx sy : ℤ) (ix iy : ℚ)
    (x y l : ℤ) :
    (OrbPhysics.markOrbCircular g orb sx sy ix iy).inBounds x y l ↔ g.inBounds x y l := by
  simp only [OrbPhysics.markOrbCircular, SpatialGrid.addCellFlag]
  rw [inBounds_foldl_modify, inBounds_foldl_modify]

lemma inBounds_clearOrbCircular (g : SpatialGrid) (orb : Orb) (sx sy : ℤ) (ix iy : ℚ)
    (x y l : ℤ) :
    (OrbPhysics.clearOrbCircular g orb sx sy ix iy).inBounds x y l ↔ g.inBounds x y l := by
  simp only [OrbPhysics.clearOrbCircular, SpatialGrid.removeCellFlag]
  rw [inBounds_foldl_modify, inBounds_foldl_modify]

lemma getCell_of_inBounds {g : SpatialGrid} {x y l : ℤ} (h : g.inBounds x y l) :
    g.getCell x y l = g.cells x y l := by
  unfold SpatialGrid.getCell
  rw [if_pos h]

lemma CELL_PROXIMITY_pow : SharedTypes.CELL_PROXIMITY = 2 ^ 0 := rfl

lemma CELL_FILLED_pow : SharedTypes.CELL_FILLED = 2 ^ 1 := rfl

lemma CELL_BORDER_pow : SharedTypes.CELL_BORDER = 2 ^ 2 := rfl

lemma body_le_avoidanceRadius (size : ℕ) : size - 1 ≤ OrbPhysics.avoidanceRadius size := by
  unfold OrbPhysics.avoidanceRadius
  omega

lemma not_bodyCond_of_shellCond {size : ℕ} {d : ℤ × ℤ × ℤ} (h : shellCond size d) :
    ¬ bodyCond size d :=
  not_le.mpr h.1

lemma not_shellCond_of_bodyCond {size : ℕ} {d : ℤ × ℤ × ℤ} (h : bodyCond size d) :
    ¬ shellCond size d :=
  fun hc => (not_le.mpr hc.1) h

/-- Value of the marked grid at a cell of the spherical body: FILLED is
added on top of the starting value. -/
lemma mark_cells_body (g : SpatialGrid) (orb : Orb) (sx sy : ℤ) (ix iy : ℚ)
    {d : ℤ × ℤ × ℤ} (hd : d ∈ cellTriples (orb.size - 1)) (hbd : bodyCond orb.size d)
    (hinb : g.inBounds (toCell orb.pxX ix sx + d.1) (toCell orb.pxY iy sy + d.2.1)
      (jsRound orb.z + d.2.2)) :
    (OrbPhysics.markOrbCircular g orb sx sy ix iy).cells (toCell orb.pxX ix sx + d.1)
        (toCell orb.pxY iy sy + d.2.1) (jsRound orb.z + d.2.2) =
      SharedTypes.addCellFlag
        (g.cells (toCell orb.pxX ix sx + d.1) (toCell orb.pxY iy sy + d.2.1)
          (jsRound orb.z + d.2.2)) SharedTypes.CELL_FILLED := by
  have hres : (toCell orb.pxX ix sx + d.1 - toCell orb.pxX ix sx,
      toCell orb.pxY iy sy + d.2.1 - toCell orb.pxY iy sy,
      jsRound orb.z + d.2.2 - jsRound orb.z) = d := by
    obtain ⟨d1, d2, d3⟩ := d
    simp
  rw [markOrbCircular_cells, hres]
  rw [if_pos ⟨hd, hbd, hinb⟩, if_neg (fun hc => not_shellCond_of_bodyCond hbd hc.2.1)]

/-- Value of the marked grid at a cell of the avoidance shell: PROXIMITY is
added on top of the starting value. -/
lemma mark_cells_shell (g : SpatialGrid) (orb : Orb) (sx sy : ℤ) (ix iy : ℚ)
    {d : ℤ × ℤ × ℤ} (hd : d ∈ cellTriples (OrbPhysics.avoidanceRadius orb.size))
    (hsh : shellCond orb.size d)
    (hinb : g.inBounds (toCell orb.pxX ix sx + d.1) (toCell orb.pxY iy sy + d.2.1)
      (jsRound orb.z + d.2.2)) :
    (OrbPhysics.markOrbCircular g orb sx sy ix iy).cells (toCell orb.pxX ix sx + d.1)
        (toCell orb.pxY iy sy + d.2.1) (jsRound orb.z + d.2.2) =
      SharedTypes.addCellFlag
        (g.cells (toCell orb.pxX ix sx + d.1) (toCell orb.pxY iy sy + d.2.1)
          (jsRound orb.z + d.2.2)) SharedTypes.CELL_PROXIMITY := by
  have hres : (toCell orb.pxX ix sx + d.1 - toCell orb.pxX ix sx,
      toCell orb.pxY iy sy + d.2.1 - toCell orb.pxY iy sy,
      jsRound orb.z + d.2.2 - jsRound orb.z) = d := by
    obtain ⟨d1, d2, d3⟩ := d
    simp
  rw [markOrbCircular_cells, hres]
  rw [if_neg (fun hc => not_bodyCond_of_shellCond hsh hc.2.1), if_pos ⟨hd, hsh, hinb⟩]

/-- Cells outside the footprint (or out of range) are untouched by the
mark pass. -/
lemma mark_cells_other (g : SpatialGrid) (orb : Orb) (sx sy : ℤ) (ix iy : ℚ) {x y l : ℤ}
    (hnb : ¬ ((x - toCell orb.pxX ix sx, y - toCell orb.pxY iy sy, l - jsRound orb.z) ∈
      cellTriples (orb.size - 1) ∧
      bodyCond orb.size (x - toCell orb.pxX ix sx, y - toCell orb.pxY iy sy,
        l - jsRound orb.z) ∧ g.inBounds x y l))
    (hns : ¬ ((x - toCell orb.pxX ix sx, y - toCell orb.pxY iy sy, l - jsRound orb.z) ∈
      cellTriples (OrbPhysics.avoidanceRadius orb.size) ∧
      shellCond orb.size (x - toCell orb.pxX ix sx, y - toCell orb.pxY iy sy,
        l - jsRound orb.z) ∧ g.inBounds x y l)) :
    (OrbPhysics.markOrbCircular g orb sx sy ix iy).cells x y l = g.cells x y l := by
  rw [markOrbCircular_cells]
  rw [if_neg hnb, if_neg hns]

/-- The clear pass undoes the mark pass pointwise when the starting grid
carried no FILLED flag on the body and no PROXIMITY flag on the shell of
the footprint. -/
lemma clear_mark_restore (g : SpatialGrid) (orb : Orb) (sx sy : ℤ) (ix iy : ℚ)
    (hbody : ∀ d ∈ cellTriples (orb.size - 1), bodyCond orb.size d →
      SharedTypes.hasCellFlag
        (g.cells (toCell orb.pxX ix sx + d.1) (toCell orb.pxY iy sy + d.2.1)
          (jsRound orb.z + d.2.2)) SharedTypes.CELL_FILLED = false)
    (hshell : ∀ d ∈ cellTriples (OrbPhysics.avoidanceRadius orb.size), shellCond orb.size d →
      SharedTypes.hasCellFlag
        (g.cells (toCell orb.pxX ix sx + d.1) (toCell orb.pxY iy sy + d.2.1)
          (jsRound orb.z + d.2.2)) SharedTypes.CELL_PROXIMITY = false)
    (x y l : ℤ) :
    (OrbPhysics.clearOrbCircular (OrbPhysics.markOrbCircular g orb sx sy ix iy) orb sx sy
        ix iy).cells x y l = g.cells x y l := by
  have hx : toCell orb.pxX ix sx + (x - toCell orb.pxX ix sx) = x := by ring
  have hy : toCell orb.pxY iy sy + (y - toCell orb.pxY iy sy) = y := by ring
  have hl : jsRound orb.z + (l - jsRound orb.z) = l := by ring
  rw [clearOrbCircular_cells]
  simp only [inBounds_markOrbCircular]
  by_cases hB : (x - toCell orb.pxX ix sx, y - toCell orb.pxY iy sy, l - jsRound orb.z) ∈
      cellTriples (orb.size - 1) ∧
      bodyCond orb.size (x - toCell orb.pxX ix sx, y - toCell orb.pxY iy sy,
        l - jsRound orb.z) ∧ g.inBounds x y l
  · have hnS : ¬ ((x - toCell orb.pxX ix sx, y - toCell orb.pxY iy sy, l - jsRound orb.z) ∈
        cellTriples (OrbPhysics.avoidanceRadius orb.size) ∧
        shellCond orb.size (x - toCell orb.pxX ix sx, y - toCell orb.pxY iy sy,
          l - jsRound orb.z) ∧ g.inBounds x y l) :=
      fun hc => not_shellCond_of_bodyCond hB.2.1 hc.2.1
    have hmark := mark_cells_body g orb sx sy ix iy hB.1 hB.2.1
      (by rw [hx, hy, hl]; exact hB.2.2)
    rw [hx, hy, hl] at hmark
    have hfree := hbody _ hB.1 hB.2.1
    rw [hx, hy, hl] at hfree
    rw [if_pos hB, if_neg hnS, hmark, CELL_FILLED_pow]
    rw [CELL_FILLED_pow] at hfree
    exact removeCellFlag_addCellFlag_cancel _ hfree
  · by_cases hS : (x - toCell orb.pxX ix sx, y - toCell orb.pxY iy sy, l - jsRound orb.z) ∈
        cellTriples (OrbPhysics.avoidanceRadius orb.size) ∧
        shellCond orb.size (x - toCell orb.pxX ix sx, y - toCell orb.pxY iy sy,
          l - jsRound orb.z) ∧ g.inBounds x y l
    · have hmark := mark_cells_shell g orb sx sy ix iy hS.1 hS.2.1
        (by rw [hx, hy, hl]; exact hS.2.2)
      rw [hx, hy, hl] at hmark
      have hfree := hshell _ hS.1 hS.2.1
      rw [hx, hy, hl] at hfree
      rw [if_neg hB, if_pos hS, hmark, CELL_PROXIMITY_pow]
      rw [CELL_PROXIMITY_pow] at hfree
      exact removeCellFlag_addCellFlag_cancel _ hfree
    · rw [if_neg hB, if_neg hS]
      exact mark_cells_other g orb sx sy ix iy hB hS

/-! ### Claim 3 -/

/-- C3: for every orb and every starting grid whose footprint is in range,
after markOrbCircular every cell within the body radius carries FILLED and
every cell in the avoidance shell carries PROXIMITY; after the paired
clearOrbCircular none of those cells retains either flag, and provided no
other orb overlaps the footprint (the starting grid holds no FILLED on the
body and no PROXIMITY on the shell) the round trip restores the starting
grid exactly, leaving every BORDER flag unchanged. -/
theorem claim3_mark_clear_roundtrip (g : SpatialGrid) (orb : Orb) (sx sy : ℤ) (ix iy : ℚ)
    (hin : ∀ d ∈ cellTriples (OrbPhysics.avoidanceRadius orb.size),
      g.inBounds (toCell orb.pxX ix sx + d.1) (toCell orb.pxY iy sy + d.2.1)
        (jsRound orb.z + d.2.2))
    (hbody : ∀ d ∈ cellTriples (orb.size - 1), bodyCond orb.size d →
      SharedTypes.hasCellFlag
        (g.cells (toCell orb.pxX ix sx + d.1) (toCell orb.pxY iy sy + d.2.1)
          (jsRound orb.z + d.2.2)) SharedTypes.CELL_FILLED = false)
    (hshell : ∀ d ∈ cellTriples (OrbPhysics.avoidanceRadius orb.size), shellCond orb.size d →
      SharedTypes.hasCellFlag
        (g.cells (toCell orb.pxX ix sx + d.1) (toCell orb.pxY iy sy + d.2.1)
          (jsRound orb.z + d.2.2)) SharedTypes.CELL_PROXIMITY = false) :
    (∀ d ∈ cellTriples (orb.size - 1), bodyCond orb.size d →
      SharedTypes.hasCellFlag
        ((OrbPhysics.markOrbCircular g orb sx sy ix iy).getCell (toCell orb.pxX ix sx + d.1)
          (toCell orb.pxY iy sy + d.2.1) (jsRound orb.z + d.2.2))
        SharedTypes.CELL_FILLED = true) ∧
    (∀ d ∈ cellTriples (OrbPhysics.avoidanceRadius orb.size), shellCond orb.size d →
      SharedTypes.hasCellFlag
        ((OrbPhysics.markOrbCircular g orb sx sy ix iy).getCell (toCell orb.pxX ix sx + d.1)
          (toCell orb.pxY iy sy + d.2.1) (jsRound orb.z + d.2.2))
        SharedTypes.CELL_PROXIMITY = true) ∧
    (∀ x y l, (OrbPhysics.clearOrbCircular (OrbPhysics.markOrbCircular g orb sx sy ix iy)
        orb sx sy ix iy).cells x y l = g.cells x y l) ∧
    (∀ x y l, SharedTypes.hasCellFlag
        ((OrbPhysics.clearOrbCircular (OrbPhysics.markOrbCircular g orb sx sy ix iy)
          orb sx sy ix iy).cells x y l) SharedTypes.CELL_BORDER =
      SharedTypes.hasCellFlag (g.cells x y l) SharedTypes.CELL_BORDER) := by
  have h3 := clear_mark_restore g orb sx sy ix iy hbody hshell
  refine ⟨?_, ?_, h3, fun x y l => by rw [h3]⟩
  · intro d hd hbd
    have hdA := mem_cellTriples_mono (body_le_avoidanceRadius orb.size) hd
    have hinb := hin d hdA
    rw [getCell_of_inBounds ((inBounds_markOrbCircular g orb sx sy ix iy _ _ _).mpr hinb)]
    rw [mark_cells_body g orb sx sy ix iy hd hbd hinb, CELL_FILLED_pow]
    exact hasCellFlag_addCellFlag_self _ 1
  · intro d hd hsh
    have hinb := hin d hd
    rw [getCell_of_inBounds ((inBounds_markOrbCircular g orb sx sy ix iy _ _ _).mpr hinb)]
    rw [mark_cells_shell g orb sx sy ix iy hd hsh hinb, CELL_PROXIMITY_pow]
    exact hasCellFlag_addCellFlag_self _ 0

set_option maxRecDepth 100000 in
/-- Witness for C3: a size-2 orb marked and cleared at the centre of an
empty grid; the centre cell reports FILLED while marked and an off-centre
cell is restored by the round trip. -/
theorem claim3_witness :
    SharedTypes.hasCellFlag
      ((OrbPhysics.markOrbCircular gridZero orbSize2 0 0 1 1).getCell 5 5 5)
      SharedTypes.CELL_FILLED = true ∧
    (OrbPhysics.clearOrbCircular (OrbPhysics.markOrbCircular gridZero orbSize2 0 0 1 1)
      orbSize2 0 0 1 1).cells 5 5 7 = gridZero.cells 5 5 7 := by
  have h5x : toCell orbSize2.pxX 1 0 = 5 := by norm_num [toCell, jsTrunc, orbSize2]
  have h5y : toCell orbSize2.pxY 1 0 = 5 := by norm_num [toCell, jsTrunc, orbSize2]
  have h5z : jsRound orbSize2.z = 5 := by norm_num [jsRound, orbSize2]
  have H := claim3_mark_clear_roundtrip gridZero orbSize2 0 0 1 1
    (by simp only [h5x, h5y, h5z]; decide)
    (by simp only [h5x, h5y, h5z]; decide)
    (by simp only [h5x, h5y, h5z]; decide)
  constructor
  · have h1 := H.1 (0, 0, 0) (by decide) (by decide)
    simpa [h5x, h5y, h5z] using h1
  · exact H.2.2.1 5 5 7

/-! ### Claim 8 -/

set_option maxRecDepth 10000 in
/-- C8 counterexample: marking a stationary size-1 orb whose centre cell is
(5, 5, 5) on an empty grid modifies the distinct cell (5, 5, 7): that cell
changes from EMPTY to PROXIMITY, refuting that only the single containing
cell is modified. -/
theorem claim8_counterexample :
    (OrbPhysics.markOrbCircular gridZero orbSize1 0 0 1 1).getCell 5 5 7 = 1 ∧
      gridZero.getCell 5 5 7 = 0 := by
  have hx : toCell orbSize1.pxX 1 0 = 5 := by norm_num [toCell, jsTrunc, orbSize1]
  have hy : toCell orbSize1.pxY 1 0 = 5 := by norm_num [toCell, jsTrunc, orbSize1]
  have hz : jsRound orbSize1.z = 5 := by norm_num [jsRound, orbSize1]
  simp only [OrbPhysics.markOrbCircular, hx, hy, hz]
  decide

/-- C8 amended: for a size-1 orb the FILLED marking covers exactly the
centre cell, but markOrbCircular additionally adds PROXIMITY to every
in-range cell at an offset with 0 < distSq <= 4 (the avoidance shell of
radius 2); only cells of that shell and the centre are modified. -/
theorem claim8_amended (g : SpatialGrid) (orb : Orb) (sx sy : ℤ) (ix iy : ℚ)
    (hsz : orb.size = 1) :
    (g.inBounds (toCell orb.pxX ix sx) (toCell orb.pxY iy sy) (jsRound orb.z) →
      (OrbPhysics.markOrbCircular g orb sx sy ix iy).cells (toCell orb.pxX ix sx)
          (toCell orb.pxY iy sy) (jsRound orb.z) =
        SharedTypes.addCellFlag
          (g.cells (toCell orb.pxX ix sx) (toCell orb.pxY iy sy) (jsRound orb.z))
          SharedTypes.CELL_FILLED) ∧
    (∀ d ∈ cellTriples 2, 0 < sqLen d → sqLen d ≤ 4 →
      g.inBounds (toCell orb.pxX ix sx + d.1) (toCell orb.pxY iy sy + d.2.1)
        (jsRound orb.z + d.2.2) →
      (OrbPhysics.markOrbCircular g orb sx sy ix iy).cells (toCell orb.pxX ix sx + d.1)
          (toCell orb.pxY iy sy + d.2.1) (jsRound orb.z + d.2.2) =
        SharedTypes.addCellFlag
          (g.cells (toCell orb.pxX ix sx + d.1) (toCell orb.pxY iy sy + d.2.1)
            (jsRound orb.z + d.2.2)) SharedTypes.CELL_PROXIMITY) ∧
    (∀ x y l,
      ((x - toCell orb.pxX ix sx, y - toCell orb.pxY iy sy, l - jsRound orb.z) ∉
          cellTriples 2 ∨
        4 < sqLen (x - toCell orb.pxX ix sx, y - toCell orb.pxY iy sy, l - jsRound orb.z)) →
      (OrbPhysics.markOrbCircular g orb sx sy ix iy).cells x y l = g.cells x y l) := by
  have hA : OrbPhysics.avoidanceRadius orb.size = 2 := by
    rw [hsz]
    decide
  have hr : orb.size - 1 = 0 := by
    rw [hsz]
  refine ⟨?_, ?_, ?_⟩
  · intro hinb
    have h := mark_cells_body g orb sx sy ix iy (d := (0, 0, 0))
      (by rw [hr]; decide)
      (by unfold bodyCond sqLen; norm_num [mul_self_nonneg])
      (by simpa using hinb)
    simpa using h
  · intro d hd h0 h4 hinb
    have hsh : shellCond orb.size d := by
      refine ⟨?_, ?_⟩
      · rw [hsz]
        simpa using h0
      · rw [hA]
        push_cast
        omega
    exact mark_cells_shell g orb sx sy ix iy (by rw [hA]; exact hd) hsh hinb
  · intro x y l hdisj
    apply mark_cells_other
    · intro hc
      rcases hdisj with hm | hs
      · have h0m : (x - toCell orb.pxX ix sx, y - toCell orb.pxY iy sy, l - jsRound orb.z) ∈
            cellTriples 0 := by
          rw [hr] at hc
          exact hc.1
        exact hm (mem_cellTriples_mono (by omega) h0m)
      · have hb := hc.2.1
        unfold bodyCond at hb
        rw [hsz] at hb
        push_cast at hb
        omega
    · intro hc
      rcases hdisj with hm | hs
      · exact hm (by rw [hA] at hc; exact hc.1)
      · have hb := hc.2.1.2
        rw [hA] at hb
        push_cast at hb
        omega

/-- Witness for C8 amended: the size-1 orb at the centre of the empty grid
has its centre cell FILLED and the off-centre shell cell (5, 5, 7) gains
PROXIMITY. -/
theorem claim8_amended_witness :
    (OrbPhysics.markOrbCircular gridZero orbSize1 0 0 1 1).cells 5 5 5 =
      SharedTypes.addCellFlag (gridZero.cells 5 5 5) SharedTypes.CELL_FILLED ∧
    (OrbPhysics.markOrbCircular gridZero orbSize1 0 0 1 1).cells 5 5 7 =
      SharedTypes.addCellFlag (gridZero.cells 5 5 7) SharedTypes.CELL_PROXIMITY := by
  have hx : toCell orbSize1.pxX 1 0 = 5 := by norm_num [toCell, jsTrunc, orbSize1]
  have hy : toCell orbSize1.pxY 1 0 = 5 := by norm_num [toCell, jsTrunc, orbSize1]
  have hz : jsRound orbSize1.z = 5 := by norm_num [jsRound, orbSize1]
  have H := claim8_amended gridZero orbSize1 0 0 1 1 rfl
  constructor
  · have h := H.1 (by rw [hx, hy, hz]; decide)
    rw [hx, hy, hz] at h
    exact h
  · have h := H.2.1 (0, 0, 2) (by decide) (by decide) (by decide)
      (by rw [hx, hy, hz]; decide)
    rw [hx, hy, hz] at h
    simpa using h

/-! ### Claim 5 -/

/-- C5 counterexample: a size-2 orb moving diagonally toward the only
occupied cell of the grid.  The occupied cell is exactly the full-diagonal
destination cell and is blocking, yet checkMove reports no collision at
all: for multi-cell orbs the diagonal destination is not tested. -/
theorem claim5_counterexample :
    CollisionSystem.checkMove orbMove2 1 gridDiag vpcUnit =
      ⟨false, false, false, false⟩ ∧
    gridDiag.isBlocking (toCell (orbMove2.pxX + orbMove2.vx * 1) vpcUnit.invCellSizeXPx
        vpcUnit.startCellX)
      (toCell (orbMove2.pxY + orbMove2.vy * 1) vpcUnit.invCellSizeYPx vpcUnit.startCellY)
      (jsRound (orbMove2.z + orbMove2.vz * 1)) = true := by
  have h5 : toCell orbMove2.pxX vpcUnit.invCellSizeXPx vpcUnit.startCellX = 5 := by
    norm_num [toCell, jsTrunc, orbMove2, vpcUnit]
  have h5y : toCell orbMove2.pxY vpcUnit.invCellSizeYPx vpcUnit.startCellY = 5 := by
    norm_num [toCell, jsTrunc, orbMove2, vpcUnit]
  have h7 : toCell (orbMove2.pxX + orbMove2.vx * 1) vpcUnit.invCellSizeXPx
      vpcUnit.startCellX = 7 := by
    norm_num [toCell, jsTrunc, orbMove2, vpcUnit]
  have h7y : toCell (orbMove2.pxY + orbMove2.vy * 1) vpcUnit.invCellSizeYPx
      vpcUnit.startCellY = 7 := by
    norm_num [toCell, jsTrunc, orbMove2, vpcUnit]
  have hl : jsRound orbMove2.z = 1 := by
    norm_num [jsRound, orbMove2]
  have hl2 : jsRound (orbMove2.z + orbMove2.vz * 1) = 1 := by
    norm_num [jsRound, orbMove2]
  constructor
  · simp only [CollisionSystem.checkMove, h5, h5y, h7, h7y, hl, hl2]
    decide
  · rw [h7, h7y, hl2]
    decide

/-- C5 amended: checkMove returns per-axis blocked flags enabling
axis-independent wall sliding.  For size-1 orbs the X, Y, Z and
full-diagonal destination cells are each tested against isBlocking, and an
orb whose probes are blocked only on X reflects only on X; for multi-cell
orbs every cell of the spherical footprint is tested at the X, Y and Z
axis destinations (with no separate diagonal probe), and an orb whose
footprint is blocked only at the X destination has reflectY and reflectZ
false. -/
theorem claim5_amended (orb : Orb) (deltaTime : ℚ) (grid : SpatialGrid)
    (vpc : ViewportCells) :
    (orb.size = 1 →
      grid.isBlocking (toCell (orb.pxX + orb.vx * deltaTime) vpc.invCellSizeXPx vpc.startCellX)
        (toCell orb.pxY vpc.invCellSizeYPx vpc.startCellY) (jsRound orb.z) = true →
      grid.isBlocking (toCell orb.pxX vpc.invCellSizeXPx vpc.startCellX)
        (toCell (orb.pxY + orb.vy * deltaTime) vpc.invCellSizeYPx vpc.startCellY)
        (jsRound orb.z) = false →
      grid.isBlocking (toCell orb.pxX vpc.invCellSizeXPx vpc.startCellX)
        (toCell orb.pxY vpc.invCellSizeYPx vpc.startCellY)
        (jsRound (orb.z + orb.vz * deltaTime)) = false →
      grid.isBlocking (toCell (orb.pxX + orb.vx * deltaTime) vpc.invCellSizeXPx vpc.startCellX)
        (toCell (orb.pxY + orb.vy * deltaTime) vpc.invCellSizeYPx vpc.startCellY)
        (jsRound (orb.z + orb.vz * deltaTime)) = false →
      CollisionSystem.checkMove orb deltaTime grid vpc = ⟨true, true, false, false⟩) ∧
    (1 < orb.size →
      (∃ d ∈ cellTriples (orb.size - 1),
        sqLen d ≤ ((orb.size : ℤ) - 1) * ((orb.size : ℤ) - 1) ∧
        grid.isBlocking
          (toCell (orb.pxX + orb.vx * deltaTime) vpc.invCellSizeXPx vpc.startCellX + d.1)
          (toCell orb.pxY vpc.invCellSizeYPx vpc.startCellY + d.2.1)
          (jsRound orb.z + d.2.2) = true) →
      (∀ d ∈ cellTriples (orb.size - 1),
        sqLen d ≤ ((orb.size : ℤ) - 1) * ((orb.size : ℤ) - 1) →
        grid.isBlocking (toCell orb.pxX vpc.invCellSizeXPx vpc.startCellX + d.1)
          (toCell (orb.pxY + orb.vy * deltaTime) vpc.invCellSizeYPx vpc.startCellY + d.2.1)
          (jsRound orb.z + d.2.2) = false) →
      (∀ d ∈ cellTriples (orb.size - 1),
        sqLen d ≤ ((orb.size : ℤ) - 1) * ((orb.size : ℤ) - 1) →
        grid.isBlocking (toCell orb.pxX vpc.invCellSizeXPx vpc.startCellX + d.1)
          (toCell orb.pxY vpc.invCellSizeYPx vpc.startCellY + d.2.1)
          (jsRound (orb.z + orb.vz * deltaTime) + d.2.2) = false) →
      CollisionSystem.checkMove orb deltaTime grid vpc = ⟨true, true, false, false⟩) := by
  constructor
  · intro hsz hbx hby hbz hbd
    simp only [CollisionSystem.checkMove]
    rw [if_pos hsz, hbx, hby, hbz, hbd]
    rfl
  · intro hsz hX hY hZ
    simp only [CollisionSystem.checkMove]
    rw [if_neg (by omega : ¬ orb.size = 1)]
    have hbX : ((cellTriples (orb.size - 1)).any fun d =>
        decide (sqLen d ≤ ((orb.size : ℤ) - 1) * ((orb.size : ℤ) - 1)) &&
          grid.isBlocking
            (toCell (orb.pxX + orb.vx * deltaTime) vpc.invCellSizeXPx vpc.startCellX + d.1)
            (toCell orb.pxY vpc.invCellSizeYPx vpc.startCellY + d.2.1)
            (jsRound orb.z + d.2.2)) = true := by
      rw [List.any_eq_true]
      obtain ⟨d, hd, hcond, hblk⟩ := hX
      exact ⟨d, hd, by rw [hblk]; simp [hcond]⟩
    have hbY : ((cellTriples (orb.size - 1)).any fun d =>
        decide (sqLen d ≤ ((orb.size : ℤ) - 1) * ((orb.size : ℤ) - 1)) &&
          grid.isBlocking (toCell orb.pxX vpc.invCellSizeXPx vpc.startCellX + d.1)
            (toCell (orb.pxY + orb.vy * deltaTime) vpc.invCellSizeYPx vpc.startCellY + d.2.1)
            (jsRound orb.z + d.2.2)) = false := by
      rw [List.any_eq_false]
      intro d hd
      by_cases hcond : sqLen d ≤ ((orb.size : ℤ) - 1) * ((orb.size : ℤ) - 1)
      · simp [hcond, hY d hd hcond]
      · simp [hcond]
    have hbZ : ((cellTriples (orb.size - 1)).any fun d =>
        decide (sqLen d ≤ ((orb.size : ℤ) - 1) * ((orb.size : ℤ) - 1)) &&
          grid.isBlocking (toCell orb.pxX vpc.invCellSizeXPx vpc.startCellX + d.1)
            (toCell orb.pxY vpc.invCellSizeYPx vpc.startCellY + d.2.1)
            (jsRound (orb.z + orb.vz * deltaTime) + d.2.2)) = false := by
      rw [List.any_eq_false]
      intro d hd
      by_cases hcond : sqLen d ≤ ((orb.size : ℤ) - 1) * ((orb.size : ℤ) - 1)
      · simp [hcond, hZ d hd hcond]
      · simp [hcond]
    rw [hbX, hbY, hbZ]
    rfl

set_option maxRecDepth 10000 in
/-- Witness for C5 amended: a size-2 orb next to a wall cell that blocks
only its X-axis destination continues to move freely on Y and Z. -/
theorem claim5_amended_witness :
    CollisionSystem.checkMove orbMove2 1
      { cellsX := 16, cellsY := 16, layers := 3
        cells := fun x y lc => if x = 7 ∧ y = 5 ∧ lc = 1 then 2 else 0 } vpcUnit =
      ⟨true, true, false, false⟩ := by
  have h5 : toCell orbMove2.pxX vpcUnit.invCellSizeXPx vpcUnit.startCellX = 5 := by
    norm_num [toCell, jsTrunc, orbMove2, vpcUnit]
  have h5y : toCell orbMove2.pxY vpcUnit.invCellSizeYPx vpcUnit.startCellY = 5 := by
    norm_num [toCell, jsTrunc, orbMove2, vpcUnit]
  have h7 : toCell (orbMove2.pxX + orbMove2.vx * 1) vpcUnit.invCellSizeXPx
      vpcUnit.startCellX = 7 := by
    norm_num [toCell, jsTrunc, orbMove2, vpcUnit]
  have h7y : toCell (orbMove2.pxY + orbMove2.vy * 1) vpcUnit.invCellSizeYPx
      vpcUnit.startCellY = 7 := by
    norm_num [toCell, jsTrunc, orbMove2, vpcUnit]
  have hl : jsRound orbMove2.z = 1 := by
    norm_num [jsRound, orbMove2]
  have hl2 : jsRound (orbMove2.z + orbMove2.vz * 1) = 1 := by
    norm_num [jsRound, orbMove2]
  have H := (claim5_amended orbMove2 1
    { cellsX := 16, cellsY := 16, layers := 3
      cells := fun x y lc => if x = 7 ∧ y = 5 ∧ lc = 1 then 2 else 0 } vpcUnit).2
  apply H (by decide)
  · refine ⟨(0, 0, 0), by decide, by decide, ?_⟩
    simp only [h5, h5y, h7, h7y, hl, hl2]
    decide
  · intro d hd hcond
    revert hcond
    revert hd
    simp only [h5, h5y, h7, h7y, hl, hl2]
    revert d
    decide
  · intro d hd hcond
    revert hcond
    revert hd
    simp only [h5, h5y, h7, h7y, hl, hl2]
    revert d
    decide

/-! ### Claim 6 -/

/-- C6: canSpawn returns false exactly when some cell of the covered
spherical footprint carries FILLED or BORDER; consequently a spawn whose
centre cell lies inside the body of a marked orb is rejected, while a
size-1 spawn at a cell of the avoidance shell only (PROXIMITY without
FILLED or BORDER) is accepted. -/
theorem claim6_canSpawn :
    (∀ (pxX pxY z : ℚ) (size : ℕ) (grid : SpatialGrid) (vpc : ViewportCells), 1 ≤ size →
      (CollisionSystem.canSpawn pxX pxY z size grid vpc = false ↔
        ∃ d ∈ cellTriples (size - 1),
          sqLen d ≤ ((size : ℤ) - 1) * ((size : ℤ) - 1) ∧
          (SharedTypes.hasCellFlag
              (grid.getCell (toCell pxX vpc.invCellSizeXPx vpc.startCellX + d.1)
                (toCell pxY vpc.invCellSizeYPx vpc.startCellY + d.2.1)
                (jsRound z + d.2.2)) SharedTypes.CELL_FILLED = true ∨
            SharedTypes.hasCellFlag
              (grid.getCell (toCell pxX vpc.invCellSizeXPx vpc.startCellX + d.1)
                (toCell pxY vpc.invCellSizeYPx vpc.startCellY + d.2.1)
                (jsRound z + d.2.2)) SharedTypes.CELL_BORDER = true))) ∧
    (∀ (g : SpatialGrid) (orb : Orb) (pxX pxY z : ℚ) (size : ℕ) (vpc : ViewportCells)
        (d : ℤ × ℤ × ℤ), 1 ≤ size →
      d ∈ cellTriples (orb.size - 1) → bodyCond orb.size d →
      g.inBounds (toCell orb.pxX vpc.invCellSizeXPx vpc.startCellX + d.1)
        (toCell orb.pxY vpc.invCellSizeYPx vpc.startCellY + d.2.1)
        (jsRound orb.z + d.2.2) →
      toCell pxX vpc.invCellSizeXPx vpc.startCellX =
        toCell orb.pxX vpc.invCellSizeXPx vpc.startCellX + d.1 →
      toCell pxY vpc.invCellSizeYPx vpc.startCellY =
        toCell orb.pxY vpc.invCellSizeYPx vpc.startCellY + d.2.1 →
      jsRound z = jsRound orb.z + d.2.2 →
      CollisionSystem.canSpawn pxX pxY z size
        (OrbPhysics.markOrbCircular g orb vpc.startCellX vpc.startCellY
          vpc.invCellSizeXPx vpc.invCellSizeYPx) vpc = false) ∧
    (∀ (g : SpatialGrid) (orb : Orb) (pxX pxY z : ℚ) (vpc : ViewportCells) (d : ℤ × ℤ × ℤ),
      d ∈ cellTriples (OrbPhysics.avoidanceRadius orb.size) → shellCond orb.size d →
      g.inBounds (toCell orb.pxX vpc.invCellSizeXPx vpc.startCellX + d.1)
        (toCell orb.pxY vpc.invCellSizeYPx vpc.startCellY + d.2.1)
        (jsRound orb.z + d.2.2) →
      toCell pxX vpc.invCellSizeXPx vpc.startCellX =
        toCell orb.pxX vpc.invCellSizeXPx vpc.startCellX + d.1 →
      toCell pxY vpc.invCellSizeYPx vpc.startCellY =
        toCell orb.pxY vpc.invCellSizeYPx vpc.startCellY + d.2.1 →
      jsRound z = jsRound orb.z + d.2.2 →
      SharedTypes.hasCellFlag
        (g.cells (toCell orb.pxX vpc.invCellSizeXPx vpc.startCellX + d.1)
          (toCell orb.pxY vpc.invCellSizeYPx vpc.startCellY + d.2.1)
          (jsRound orb.z + d.2.2)) SharedTypes.CELL_FILLED = false →
      SharedTypes.hasCellFlag
        (g.cells (toCell orb.pxX vpc.invCellSizeXPx vpc.startCellX + d.1)
          (toCell orb.pxY vpc.invCellSizeYPx vpc.startCellY + d.2.1)
          (jsRound orb.z + d.2.2)) SharedTypes.CELL_BORDER = false →
      CollisionSystem.canSpawn pxX pxY z 1
        (OrbPhysics.markOrbCircular g orb vpc.startCellX vpc.startCellY
          vpc.invCellSizeXPx vpc.invCellSizeYPx) vpc = true) := by
  have hiff : ∀ (pxX pxY z : ℚ) (size : ℕ) (grid : SpatialGrid) (vpc : ViewportCells),
      1 ≤ size →
      (CollisionSystem.canSpawn pxX pxY z size grid vpc = false ↔
        ∃ d ∈ cellTriples (size - 1),
          sqLen d ≤ ((size : ℤ) - 1) * ((size : ℤ) - 1) ∧
          (SharedTypes.hasCellFlag
              (grid.getCell (toCell pxX vpc.invCellSizeXPx vpc.startCellX + d.1)
                (toCell pxY vpc.invCellSizeYPx vpc.startCellY + d.2.1)
                (jsRound z + d.2.2)) SharedTypes.CELL_FILLED = true ∨
            SharedTypes.hasCellFlag
              (grid.getCell (toCell pxX vpc.invCellSizeXPx vpc.startCellX + d.1)
                (toCell pxY vpc.invCellSizeYPx vpc.startCellY + d.2.1)
                (jsRound z + d.2.2)) SharedTypes.CELL_BORDER = true)) := by
    intro pxX pxY z size grid vpc hsz
    by_cases hs1 : size = 1
    · subst hs1
      simp only [CollisionSystem.canSpawn, if_pos rfl]
      constructor
      · intro h
        refine ⟨(0, 0, 0), by decide, by decide, ?_⟩
        simp only [add_zero]
        rcases hF : SharedTypes.hasCellFlag
            (grid.getCell (toCell pxX vpc.invCellSizeXPx vpc.startCellX)
              (toCell pxY vpc.invCellSizeYPx vpc.startCellY) (jsRound z))
            SharedTypes.CELL_FILLED with _ | _
        · rcases hB : SharedTypes.hasCellFlag
              (grid.getCell (toCell pxX vpc.invCellSizeXPx vpc.startCellX)
                (toCell pxY vpc.invCellSizeYPx vpc.startCellY) (jsRound z))
              SharedTypes.CELL_BORDER with _ | _
          · rw [hF, hB] at h
            simp at h
          · exact Or.inr rfl
        · exact Or.inl rfl
      · rintro ⟨d, hd, _, hflag⟩
        have hd0 : d = (0, 0, 0) := by
          rw [mem_cellTriples] at hd
          obtain ⟨d1, d2, d3⟩ := d
          dsimp only at hd
          simp only [Prod.mk.injEq]
          refine ⟨?_, ?_, ?_⟩ <;> omega
        subst hd0
        simp only [add_zero] at hflag
        rcases hflag with hF | hB
        · rw [hF]
          simp
        · rw [hB]
          simp
    · simp only [CollisionSystem.canSpawn, if_neg hs1]
      rw [← Bool.not_eq_true, List.all_eq_true]
      constructor
      · intro h
        push_neg at h
        obtain ⟨d, hd, hfail⟩ := h
        refine ⟨d, hd, ?_⟩
        by_cases hcond : sqLen d ≤ ((size : ℤ) - 1) * ((size : ℤ) - 1)
        · refine ⟨hcond, ?_⟩
          rw [if_pos hcond] at hfail
          rcases hF : SharedTypes.hasCellFlag
              (grid.getCell (toCell pxX vpc.invCellSizeXPx vpc.startCellX + d.1)
                (toCell pxY vpc.invCellSizeYPx vpc.startCellY + d.2.1)
                (jsRound z + d.2.2)) SharedTypes.CELL_FILLED with _ | _
          · rcases hB : SharedTypes.hasCellFlag
                (grid.getCell (toCell pxX vpc.invCellSizeXPx vpc.startCellX + d.1)
                  (toCell pxY vpc.invCellSizeYPx vpc.startCellY + d.2.1)
                  (jsRound z + d.2.2)) SharedTypes.CELL_BORDER with _ | _
            · rw [hF, hB] at hfail
              simp at hfail
            · exact Or.inr rfl
          · exact Or.inl rfl
        · rw [if_neg hcond] at hfail
          simp at hfail
      · rintro ⟨d, hd, hcond, hflag⟩ hall
        have := hall d hd
        rw [if_pos hcond] at this
        rcases hflag with hF | hB
        · rw [hF] at this
          simp at this
        · rw [hB] at this
          simp at this
  refine ⟨hiff, ?_, ?_⟩
  · intro g orb pxX pxY z size vpc d hsz hd hbd hinb hcx hcy hcz
    rw [hiff pxX pxY z size _ vpc hsz]
    refine ⟨(0, 0, 0), ?_, ?_, ?_⟩
    · rw [mem_cellTriples]
      refine ⟨⟨?_, ?_⟩, ⟨?_, ?_⟩, ⟨?_, ?_⟩⟩ <;> dsimp only <;> omega
    · dsimp only [sqLen]
      norm_num [mul_self_nonneg]
    · left
      simp only [add_zero, hcx, hcy, hcz]
      rw [getCell_of_inBounds ((inBounds_markOrbCircular g orb _ _ _ _ _ _ _).mpr hinb)]
      rw [mark_cells_body g orb vpc.startCellX vpc.startCellY vpc.invCellSizeXPx
        vpc.invCellSizeYPx hd hbd hinb]
      rw [CELL_FILLED_pow]
      exact hasCellFlag_addCellFlag_self _ 1
  · intro g orb pxX pxY z vpc d hd hsh hinb hcx hcy hcz hfree hbord
    simp only [CollisionSystem.canSpawn, if_pos rfl]
    rw [hcx, hcy, hcz]
    rw [getCell_of_inBounds ((inBounds_markOrbCircular g orb _ _ _ _ _ _ _).mpr hinb)]
    rw [mark_cells_shell g orb vpc.startCellX vpc.startCellY vpc.invCellSizeXPx
      vpc.invCellSizeYPx hd hsh hinb]
    rw [CELL_PROXIMITY_pow, CELL_FILLED_pow, CELL_BORDER_pow]
    rw [CELL_FILLED_pow] at hfree
    rw [CELL_BORDER_pow] at hbord
    rw [hasCellFlag_addCellFlag_other _ (by omega), hasCellFlag_addCellFlag_other _ (by omega)]
    rw [hfree, hbord]
    rfl

set_option maxRecDepth 100000 in
/-- Witness for C6: on the empty grid with a marked size-2 orb centred at
cell (5, 5, 5), spawning at the body centre is rejected and a size-1 spawn
at the shell-only cell (5, 5, 8) is accepted. -/
theorem claim6_witness :
    CollisionSystem.canSpawn 5 5 5 1
      (OrbPhysics.markOrbCircular gridZero orbSize2 0 0 1 1) vpcUnit = false ∧
    CollisionSystem.canSpawn 5 5 8 1
      (OrbPhysics.markOrbCircular gridZero orbSize2 0 0 1 1) vpcUnit = true := by
  have h5x : toCell orbSize2.pxX 1 0 = 5 := by norm_num [toCell, jsTrunc, orbSize2]
  have h5y : toCell orbSize2.pxY 1 0 = 5 := by norm_num [toCell, jsTrunc, orbSize2]
  have h5z : jsRound orbSize2.z = 5 := by norm_num [jsRound, orbSize2]
  have hp5 : toCell (5 : ℚ) 1 0 = 5 := by norm_num [toCell, jsTrunc]
  have hr5 : jsRound (5 : ℚ) = 5 := by norm_num [jsRound]
  have hr8 : jsRound (8 : ℚ) = 8 := by norm_num [jsRound]
  have hvpc : vpcUnit.startCellX = 0 ∧ vpcUnit.startCellY = 0 ∧
      vpcUnit.invCellSizeXPx = 1 ∧ vpcUnit.invCellSizeYPx = 1 := ⟨rfl, rfl, rfl, rfl⟩
  constructor
  · refine claim6_canSpawn.2.1 gridZero orbSize2 5 5 5 1 vpcUnit (0, 0, 0) (by decide)
      (by decide) (by decide) ?_ ?_ ?_ ?_
    · simp only [hvpc.1, hvpc.2.1, hvpc.2.2.1, hvpc.2.2.2, h5x, h5y, h5z]
      decide
    · simp only [hvpc.1, hvpc.2.2.1, h5x, hp5]
      decide
    · simp only [hvpc.2.1, hvpc.2.2.2, h5y, hp5]
      decide
    · simp only [h5z, hr5]
      decide
  · refine claim6_canSpawn.2.2 gridZero orbSize2 5 5 8 vpcUnit (0, 0, 3) (by decide)
      (by decide) ?_ ?_ ?_ ?_ ?_ ?_
    · simp only [hvpc.1, hvpc.2.1, hvpc.2.2.1, hvpc.2.2.2, h5x, h5y, h5z]
      decide
    · simp only [hvpc.1, hvpc.2.2.1, h5x, hp5]
      decide
    · simp only [hvpc.2.1, hvpc.2.2.2, h5y, hp5]
      decide
    · simp only [h5z, hr8]
      decide
    · simp only [hvpc.1, hvpc.2.1, hvpc.2.2.1, hvpc.2.2.2, h5x, h5y, h5z]
      decide
    · simp only [hvpc.1, hvpc.2.1, hvpc.2.2.1, hvpc.2.2.2, h5x, h5y, h5z]
      decide

/-! ### Claim 7 -/

lemma jsRound_le (q : ℚ) : (jsRound q : ℚ) ≤ q + 1 / 2 :=
  Int.floor_le _

lemma lt_jsRound (q : ℚ) : q - 1 / 2 < (jsRound q : ℚ) := by
  unfold jsRound
  have h := Int.sub_one_lt_floor (q + 1 / 2)
  linarith

/-- C7: the continuous-spawn target equals
max(minOrbCount, round(referenceCountAt4K * screenArea / referenceScreenArea)),
is bounded below by minOrbCount, and scales linearly with screen area:
doubling both width and height multiplies the unclamped target by four up
to the rounding error of at most two counts. -/
theorem claim7_targetOrbCount (t4k refA : ℚ) (minC : ℤ) (w h : ℚ) :
    targetOrbCount t4k refA minC w h = max minC (jsRound (t4k * (w * h / refA))) ∧
    minC ≤ targetOrbCount t4k refA minC w h ∧
    (minC ≤ jsRound (t4k * (w * h / refA)) →
      minC ≤ jsRound (t4k * (2 * w * (2 * h) / refA)) →
      |targetOrbCount t4k refA minC (2 * w) (2 * h) -
        4 * targetOrbCount t4k refA minC w h| ≤ 2) := by
  refine ⟨rfl, le_max_left _ _, ?_⟩
  intro hlo hhi
  show |max minC (jsRound (t4k * (2 * w * (2 * h) / refA))) -
    4 * max minC (jsRound (t4k * (w * h / refA)))| ≤ 2
  rw [max_eq_right hlo, max_eq_right hhi]
  have harg : t4k * (2 * w * (2 * h) / refA) = 4 * (t4k * (w * h / refA)) := by
    ring
  rw [harg]
  have h1 := jsRound_le (t4k * (w * h / refA))
  have h2 := lt_jsRound (t4k * (w * h / refA))
  have h3 := jsRound_le (4 * (t4k * (w * h / refA)))
  have h4 := lt_jsRound (4 * (t4k * (w * h / refA)))
  rw [abs_le]
  constructor
  · have hq : (-3 : ℚ) < (jsRound (4 * (t4k * (w * h / refA))) : ℚ) -
        4 * (jsRound (t4k * (w * h / refA)) : ℚ) := by
      linarith
    have hz : (-3 : ℤ) < jsRound (4 * (t4k * (w * h / refA))) -
        4 * jsRound (t4k * (w * h / refA)) := by
      exact_mod_cast hq
    omega
  · have hq : (jsRound (4 * (t4k * (w * h / refA))) : ℚ) -
        4 * (jsRound (t4k * (w * h / refA)) : ℚ) < 3 := by
      linarith
    have hz : jsRound (4 * (t4k * (w * h / refA))) -
        4 * jsRound (t4k * (w * h / refA)) < (3 : ℤ) := by
      exact_mod_cast hq
    omega

/-- Witness for C7: a 5 by 4 screen with reference count 120 over
reference area 100 and floor 10. -/
theorem claim7_witness :
    targetOrbCount 120 100 10 5 4 = max 10 (jsRound (120 * (5 * 4 / 100))) ∧
    (10 : ℤ) ≤ targetOrbCount 120 100 10 5 4 ∧
    |targetOrbCount 120 100 10 (2 * 5) (2 * 4) - 4 * targetOrbCount 120 100 10 5 4| ≤ 2 := by
  have H := claim7_targetOrbCount 120 100 10 5 4
  refine ⟨H.1, H.2.1, H.2.2 ?_ ?_⟩
  · norm_num [jsRound]
  · norm_num [jsRound]

/-! ### Claim 4 -/

/-- C4 counterexample: a size-1 orb at 100 px/s with cap 10, deceleration
rate 1/20 and a 60 Hz frame: after the speed-limit phase its (vx, vy)
speed is 95.5 px/s, exceeding the cap by 85.5 - far beyond any
floating-point tolerance - because the phase damps the speed toward the
cap instead of clamping it. -/
theorem claim4_counterexample :
    (OrbPhysics.applySpeedLimit orbFast 10 1 (1 / 20) (1 / 60) msqrtW4 mpowW).vx = 191 / 2 ∧
    (OrbPhysics.applySpeedLimit orbFast 10 1 (1 / 20) (1 / 60) msqrtW4 mpowW).vy = 0 ∧
    OrbPhysics.getMaxSpeed orbFast.size 10 1 msqrtW4 = 10 ∧
    (10 : ℚ) + 80 < 191 / 2 := by
  refine ⟨?_, ?_, ?_, by norm_num⟩ <;>
    norm_num [OrbPhysics.applySpeedLimit, OrbPhysics.getMaxSpeed, orbFast, msqrtW4, mpowW]

/-- C4 amended: when the 3D speed s exceeds the size-dependent cap, one
application of applySpeedLimit rescales the velocity so that the new 3D
speed is s + (cap - s) * (1 - (1 - decelerationRate) ^ (deltaTime * 60)),
which lies between the cap and the previous speed: the speed never
increases and moves toward the cap, but may still exceed the cap after the
phase (exponential damping, not a clamp). -/
theorem claim4_amended (orb : Orb) (baseMaxSpeed minMaxSpeed decelerationRate deltaTime : ℚ)
    (msqrt : ℚ → ℚ) (mpow : ℚ → ℚ → ℚ) (s cap pw : ℚ)
    (hs : msqrt (orb.vx * orb.vx + orb.vy * orb.vy + orb.vz * 20 * (orb.vz * 20)) = s)
    (hs2 : s * s = orb.vx * orb.vx + orb.vy * orb.vy + orb.vz * 20 * (orb.vz * 20))
    (hspos : 0 < s)
    (hcapEq : OrbPhysics.getMaxSpeed orb.size baseMaxSpeed minMaxSpeed msqrt = cap)
    (hsmall : ¬ s < 0.001)
    (hcap : s > cap)
    (hpw : mpow (1 - decelerationRate) (deltaTime * 60) = pw)
    (hpw0 : 0 ≤ pw) (hpw1 : pw ≤ 1) :
    (OrbPhysics.applySpeedLimit orb baseMaxSpeed minMaxSpeed decelerationRate deltaTime
        msqrt mpow).vx = orb.vx * ((s + (cap - s) * (1 - pw)) / s) ∧
    (OrbPhysics.applySpeedLimit orb baseMaxSpeed minMaxSpeed decelerationRate deltaTime
        msqrt mpow).vy = orb.vy * ((s + (cap - s) * (1 - pw)) / s) ∧
    (OrbPhysics.applySpeedLimit orb baseMaxSpeed minMaxSpeed decelerationRate deltaTime
        msqrt mpow).vz = orb.vz * ((s + (cap - s) * (1 - pw)) / s) ∧
    cap ≤ s + (cap - s) * (1 - pw) ∧
    s + (cap - s) * (1 - pw) ≤ s ∧
    ((OrbPhysics.applySpeedLimit orb baseMaxSpeed minMaxSpeed decelerationRate deltaTime
        msqrt mpow).vx * (OrbPhysics.applySpeedLimit orb baseMaxSpeed minMaxSpeed
          decelerationRate deltaTime msqrt mpow).vx +
      (OrbPhysics.applySpeedLimit orb baseMaxSpeed minMaxSpeed decelerationRate deltaTime
        msqrt mpow).vy * (OrbPhysics.applySpeedLimit orb baseMaxSpeed minMaxSpeed
          decelerationRate deltaTime msqrt mpow).vy +
      (OrbPhysics.applySpeedLimit orb baseMaxSpeed minMaxSpeed decelerationRate deltaTime
        msqrt mpow).vz * 20 * ((OrbPhysics.applySpeedLimit orb baseMaxSpeed minMaxSpeed
          decelerationRate deltaTime msqrt mpow).vz * 20) =
      (s + (cap - s) * (1 - pw)) * (s + (cap - s) * (1 - pw))) := by
  have hsne : s ≠ 0 := ne_of_gt hspos
  have hred : OrbPhysics.applySpeedLimit orb baseMaxSpeed minMaxSpeed decelerationRate
      deltaTime msqrt mpow =
      { orb with
        vx := orb.vx * ((s + (cap - s) * (1 - pw)) / s)
        vy := orb.vy * ((s + (cap - s) * (1 - pw)) / s)
        vz := orb.vz * ((s + (cap - s) * (1 - pw)) / s)
        speed := msqrt (orb.vx * ((s + (cap - s) * (1 - pw)) / s) *
          (orb.vx * ((s + (cap - s) * (1 - pw)) / s)) +
          orb.vy * ((s + (cap - s) * (1 - pw)) / s) *
          (orb.vy * ((s + (cap - s) * (1 - pw)) / s))) } := by
    simp only [OrbPhysics.applySpeedLimit, hs, hcapEq, hpw]
    rw [if_neg hsmall, if_pos hcap]
  rw [hred]
  refine ⟨rfl, rfl, rfl, ?_, ?_, ?_⟩
  · nlinarith [mul_nonneg (le_of_lt (sub_pos.mpr hcap)) hpw0]
  · nlinarith [mul_nonneg (le_of_lt (sub_pos.mpr hcap)) (sub_nonneg.mpr hpw1)]
  · show orb.vx * ((s + (cap - s) * (1 - pw)) / s) * (orb.vx * ((s + (cap - s) * (1 - pw)) / s)) +
      orb.vy * ((s + (cap - s) * (1 - pw)) / s) * (orb.vy * ((s + (cap - s) * (1 - pw)) / s)) +
      orb.vz * ((s + (cap - s) * (1 - pw)) / s) * 20 *
        (orb.vz * ((s + (cap - s) * (1 - pw)) / s) * 20) =
      (s + (cap - s) * (1 - pw)) * (s + (cap - s) * (1 - pw))
    have expand : orb.vx * ((s + (cap - s) * (1 - pw)) / s) *
        (orb.vx * ((s + (cap - s) * (1 - pw)) / s)) +
        orb.vy * ((s + (cap - s) * (1 - pw)) / s) *
        (orb.vy * ((s + (cap - s) * (1 - pw)) / s)) +
        orb.vz * ((s + (cap - s) * (1 - pw)) / s) * 20 *
        (orb.vz * ((s + (cap - s) * (1 - pw)) / s) * 20) =
        ((s + (cap - s) * (1 - pw)) / s) * ((s + (cap - s) * (1 - pw)) / s) *
          (orb.vx * orb.vx + orb.vy * orb.vy + orb.vz * 20 * (orb.vz * 20)) := by
      ring
    rw [expand, ← hs2, div_mul_div_comm, div_mul_cancel₀]
    exact mul_ne_zero hsne hsne

/-- Witness for C4 amended: the 100 px/s orb with cap 10 at a 60 Hz frame
and rate 1/20 ends at 3D speed 95.5, strictly between the cap and the
previous speed. -/
theorem claim4_amended_witness :
    (OrbPhysics.applySpeedLimit orbFast 10 1 (1 / 20) (1 / 60) msqrtW4 mpowW).vx =
      orbFast.vx * ((100 + (10 - 100) * (1 - 19 / 20)) / 100) ∧
    (10 : ℚ) ≤ 100 + (10 - 100) * (1 - 19 / 20) ∧
    100 + (10 - 100) * (1 - 19 / 20) ≤ (100 : ℚ) := by
  have H := claim4_amended orbFast 10 1 (1 / 20) (1 / 60) msqrtW4 mpowW 100 10 (19 / 20)
    (by norm_num [msqrtW4, orbFast])
    (by norm_num [orbFast])
    (by norm_num)
    (by norm_num [OrbPhysics.getMaxSpeed, msqrtW4, orbFast])
    (by norm_num)
    (by norm_num)
    (by norm_num [mpowW])
    (by norm_num)
    (by norm_num)
  exact ⟨H.1, H.2.2.2.1, H.2.2.2.2.1⟩

/-! ### Collision pair lemmas -/

lemma posCorrA_vx (msqrt : ℚ → ℚ) (rX rY rZ : ℚ) (vpc : ViewportCells) (A B : Orb) :
    (OrbOrbCollision.posCorrA msqrt rX rY rZ vpc A B).vx = A.vx := by
  unfold OrbOrbCollision.posCorrA
  split <;> rfl

lemma posCorrA_vy (msqrt : ℚ → ℚ) (rX rY rZ : ℚ) (vpc : ViewportCells) (A B : Orb) :
    (OrbOrbCollision.posCorrA msqrt rX rY rZ vpc A B).vy = A.vy := by
  unfold OrbOrbCollision.posCorrA
  split <;> rfl

lemma posCorrA_vz (msqrt : ℚ → ℚ) (rX rY rZ : ℚ) (vpc : ViewportCells) (A B : Orb) :
    (OrbOrbCollision.posCorrA msqrt rX rY rZ vpc A B).vz = A.vz := by
  unfold OrbOrbCollision.posCorrA
  split <;> rfl

lemma posCorrB_vx (msqrt : ℚ → ℚ) (rX rY rZ : ℚ) (vpc : ViewportCells) (A B : Orb) :
    (OrbOrbCollision.posCorrB msqrt rX rY rZ vpc A B).vx = B.vx := by
  unfold OrbOrbCollision.posCorrB
  split <;> rfl

lemma posCorrB_vy (msqrt : ℚ → ℚ) (rX rY rZ : ℚ) (vpc : ViewportCells) (A B : Orb) :
    (OrbOrbCollision.posCorrB msqrt rX rY rZ vpc A B).vy = B.vy := by
  unfold OrbOrbCollision.posCorrB
  split <;> rfl

lemma posCorrB_vz (msqrt : ℚ → ℚ) (rX rY rZ : ℚ) (vpc : ViewportCells) (A B : Orb) :
    (OrbOrbCollision.posCorrB msqrt rX rY rZ vpc A B).vz = B.vz := by
  unfold OrbOrbCollision.posCorrB
  split <;> rfl

/-! ### Claim 10 -/

/-- C10: every velocity update of the pair resolution conserves
size-weighted momentum on the X and Y axes exactly: in the elastic branch,
the stuck branch, and when no velocity change happens, the size of A times
the change of the velocity of A cancels the size of B times the change of
the velocity of B; the position-correction step never touches
velocities. -/
theorem claim10_momentum (msqrt : ℚ → ℚ) (matan2 : ℚ → ℚ → ℚ) (rX rY rZ : ℚ)
    (vpc : ViewportCells) (A B : Orb) :
    (A.size : ℚ) *
        ((OrbOrbCollision.resolveCollisionsPair msqrt matan2 rX rY rZ vpc A B).1.vx - A.vx) +
      (B.size : ℚ) *
        ((OrbOrbCollision.resolveCollisionsPair msqrt matan2 rX rY rZ vpc A B).2.vx - B.vx) = 0 ∧
    (A.size : ℚ) *
        ((OrbOrbCollision.resolveCollisionsPair msqrt matan2 rX rY rZ vpc A B).1.vy - A.vy) +
      (B.size : ℚ) *
        ((OrbOrbCollision.resolveCollisionsPair msqrt matan2 rX rY rZ vpc A B).2.vy - B.vy) = 0 := by
  constructor <;>
  · simp only [OrbOrbCollision.resolveCollisionsPair]
    split
    · split
      · simp only [OrbOrbCollision.impulseAPair, OrbOrbCollision.impulseBPair,
          posCorrA_vx, posCorrA_vy, posCorrB_vx, posCorrB_vy]
        ring
      · split
        · simp only [OrbOrbCollision.minImpulseAPair, OrbOrbCollision.minImpulseBPair,
            posCorrA_vx, posCorrA_vy, posCorrB_vx, posCorrB_vy]
          ring
        · simp only [posCorrA_vx, posCorrA_vy, posCorrB_vx, posCorrB_vy]
          ring
    · ring

/-! ### Claim 1 -/

/-- C1 counterexample: two size-1 orbs approaching head-on at 10 px/s and
-10 px/s.  After resolveCollisions their velocities are 2 and -2 px/s -
scaled down by the factor 1 - elasticity = 0.2 - not swapped to -10 and
10: the impulse factor is elasticity * mOther / (mA + mB) with elasticity
0.8, not 2 * mOther / (mA + mB). -/
theorem claim1_counterexample :
    (OrbOrbCollision.resolveCollisionsPair msqrtW matan2W 1 0 0 vpcUnit
      orbHeadA orbHeadB).1.vx = 2 ∧
    (OrbOrbCollision.resolveCollisionsPair msqrtW matan2W 1 0 0 vpcUnit
      orbHeadA orbHeadB).2.vx = -2 ∧
    ¬ ((OrbOrbCollision.resolveCollisionsPair msqrtW matan2W 1 0 0 vpcUnit
        orbHeadA orbHeadB).1.vx = orbHeadB.vx ∧
       (OrbOrbCollision.resolveCollisionsPair msqrtW matan2W 1 0 0 vpcUnit
        orbHeadA orbHeadB).2.vx = orbHeadA.vx) := by
  have h1 : (OrbOrbCollision.resolveCollisionsPair msqrtW matan2W 1 0 0 vpcUnit
      orbHeadA orbHeadB).1.vx = 2 := by
    norm_num [OrbOrbCollision.resolveCollisionsPair, OrbOrbCollision.posCorrA,
      OrbOrbCollision.posCorrB, OrbOrbCollision.distSqPair, OrbOrbCollision.minDistPair,
      OrbOrbCollision.distPair, OrbOrbCollision.nxCellPair, OrbOrbCollision.nyCellPair,
      OrbOrbCollision.nzCellPair, OrbOrbCollision.nxPxPair, OrbOrbCollision.nyPxPair,
      OrbOrbCollision.nzPxPair, OrbOrbCollision.lenPxPair, OrbOrbCollision.nxPair,
      OrbOrbCollision.nyPair, OrbOrbCollision.nzPair, OrbOrbCollision.overlapPair,
      OrbOrbCollision.overlapFracPair, OrbOrbCollision.separationAPair,
      OrbOrbCollision.separationBPair, OrbOrbCollision.dvnPair,
      OrbOrbCollision.impulseAPair, OrbOrbCollision.impulseBPair,
      OrbOrbCollision.minImpulseAPair, OrbOrbCollision.minImpulseBPair,
      OrbOrbCollision.cellX, OrbOrbCollision.cellY, OrbOrbCollision.dxPair,
      OrbOrbCollision.dyPair, OrbOrbCollision.dzPair, msqrtW, matan2W, orbHeadA,
      orbHeadB, vpcUnit]
  have h2 : (OrbOrbCollision.resolveCollisionsPair msqrtW matan2W 1 0 0 vpcUnit
      orbHeadA orbHeadB).2.vx = -2 := by
    norm_num [OrbOrbCollision.resolveCollisionsPair, OrbOrbCollision.posCorrA,
      OrbOrbCollision.posCorrB, OrbOrbCollision.distSqPair, OrbOrbCollision.minDistPair,
      OrbOrbCollision.distPair, OrbOrbCollision.nxCellPair, OrbOrbCollision.nyCellPair,
      OrbOrbCollision.nzCellPair, OrbOrbCollision.nxPxPair, OrbOrbCollision.nyPxPair,
      OrbOrbCollision.nzPxPair, OrbOrbCollision.lenPxPair, OrbOrbCollision.nxPair,
      OrbOrbCollision.nyPair, OrbOrbCollision.nzPair, OrbOrbCollision.overlapPair,
      OrbOrbCollision.overlapFracPair, OrbOrbCollision.separationAPair,
      OrbOrbCollision.separationBPair, OrbOrbCollision.dvnPair,
      OrbOrbCollision.impulseAPair, OrbOrbCollision.impulseBPair,
      OrbOrbCollision.minImpulseAPair, OrbOrbCollision.minImpulseBPair,
      OrbOrbCollision.cellX, OrbOrbCollision.cellY, OrbOrbCollision.dxPair,
      OrbOrbCollision.dyPair, OrbOrbCollision.dzPair, msqrtW, matan2W, orbHeadA,
      orbHeadB, vpcUnit]
  refine ⟨h1, h2, ?_⟩
  rw [h1]
  intro hc
  have h3 : (2 : ℚ) = orbHeadB.vx := hc.1
  norm_num [orbHeadB] at h3

/-- C1 amended: for two equal-size orbs meeting head-on along the X axis
with opposite velocities, resolveCollisions applies the impulse
elasticity * mOther / (mA + mB) * relativeVelocityAlongNormal with
elasticity 0.8, so that each orb keeps its direction with its velocity
scaled by 1 - elasticity = 0.2; the velocities are not swapped (a swap
would require the impulse factor 2 * mOther / (mA + mB)). -/
theorem claim1_amended (msqrt : ℚ → ℚ) (matan2 : ℚ → ℚ → ℚ) (rX rY rZ : ℚ)
    (vpc : ViewportCells) (A B : Orb)
    (hsize : A.size = B.size) (hszpos : 1 ≤ A.size)
    (hdy : OrbOrbCollision.dyPair vpc A B = 0)
    (hdz : OrbOrbCollision.dzPair A B = 0)
    (hu : 0 < OrbOrbCollision.dxPair vpc A B)
    (hcol : OrbOrbCollision.distSqPair vpc A B <
      OrbOrbCollision.minDistPair A B * OrbOrbCollision.minDistPair A B)
    (hndeg : ¬ OrbOrbCollision.distSqPair vpc A B < 0.001)
    (hds : msqrt (OrbOrbCollision.distSqPair vpc A B) = OrbOrbCollision.dxPair vpc A B)
    (hcs : msqrt (vpc.cellSizeXPx * vpc.cellSizeXPx) = vpc.cellSizeXPx)
    (hcspos : vpc.cellSizeXPx > 0.001)
    (hvB : B.vx = -A.vx) (hvyA : A.vy = 0) (hvyB : B.vy = 0)
    (hvzA : A.vz = 0) (hvzB : B.vz = 0) (hvpos : 0 < A.vx) :
    (OrbOrbCollision.resolveCollisionsPair msqrt matan2 rX rY rZ vpc A B).1.vx =
      (1 - 0.8) * A.vx ∧
    (OrbOrbCollision.resolveCollisionsPair msqrt matan2 rX rY rZ vpc A B).2.vx =
      (1 - 0.8) * B.vx ∧
    (OrbOrbCollision.resolveCollisionsPair msqrt matan2 rX rY rZ vpc A B).1.vy = A.vy ∧
    (OrbOrbCollision.resolveCollisionsPair msqrt matan2 rX rY rZ vpc A B).2.vy = B.vy ∧
    (OrbOrbCollision.resolveCollisionsPair msqrt matan2 rX rY rZ vpc A B).1.vz = A.vz ∧
    (OrbOrbCollision.resolveCollisionsPair msqrt matan2 rX rY rZ vpc A B).2.vz = B.vz := by
  have hune : OrbOrbCollision.dxPair vpc A B ≠ 0 := ne_of_gt hu
  have hdist : OrbOrbCollision.distPair msqrt vpc A B = OrbOrbCollision.dxPair vpc A B := by
    unfold OrbOrbCollision.distPair
    rw [if_neg hndeg, hds]
  have hnxC : OrbOrbCollision.nxCellPair msqrt rX vpc A B = 1 := by
    unfold OrbOrbCollision.nxCellPair
    rw [if_neg hndeg, hdist, div_self hune]
  have hnyC : OrbOrbCollision.nyCellPair msqrt rY vpc A B = 0 := by
    unfold OrbOrbCollision.nyCellPair
    rw [if_neg hndeg, hdy]
    exact zero_div _
  have hnzC : OrbOrbCollision.nzCellPair msqrt rZ vpc A B = 0 := by
    unfold OrbOrbCollision.nzCellPair
    rw [if_neg hndeg, hdz]
    exact zero_div _
  have hlenarg : OrbOrbCollision.nxPxPair msqrt rX vpc A B *
      OrbOrbCollision.nxPxPair msqrt rX vpc A B +
      OrbOrbCollision.nyPxPair msqrt rY vpc A B * OrbOrbCollision.nyPxPair msqrt rY vpc A B +
      OrbOrbCollision.nzPxPair msqrt rZ vpc A B * OrbOrbCollision.nzPxPair msqrt rZ vpc A B =
      vpc.cellSizeXPx * vpc.cellSizeXPx := by
    unfold OrbOrbCollision.nxPxPair OrbOrbCollision.nyPxPair OrbOrbCollision.nzPxPair
    rw [hnxC, hnyC, hnzC]
    ring
  have hlen : OrbOrbCollision.lenPxPair msqrt rX rY rZ vpc A B = vpc.cellSizeXPx := by
    unfold OrbOrbCollision.lenPxPair
    rw [hlenarg, hcs]
  have hcne : vpc.cellSizeXPx ≠ 0 := by
    have : (0 : ℚ) < vpc.cellSizeXPx := lt_trans (by norm_num) hcspos
    exact ne_of_gt this
  have hNx : OrbOrbCollision.nxPair msqrt rX rY rZ vpc A B = 1 := by
    unfold OrbOrbCollision.nxPair
    rw [hlen, if_pos hcspos]
    unfold OrbOrbCollision.nxPxPair
    rw [hnxC, one_mul, div_self hcne]
  have hNy : OrbOrbCollision.nyPair msqrt rX rY rZ vpc A B = 0 := by
    unfold OrbOrbCollision.nyPair
    rw [hlen, if_pos hcspos]
    unfold OrbOrbCollision.nyPxPair
    rw [hnyC, zero_mul]
    exact zero_div _
  have hNz : OrbOrbCollision.nzPair msqrt rX rY rZ vpc A B = 0 := by
    unfold OrbOrbCollision.nzPair
    rw [hlen, if_pos hcspos]
    unfold OrbOrbCollision.nzPxPair
    rw [hnzC]
    exact zero_div _
  have hdvn : OrbOrbCollision.dvnPair msqrt rX rY rZ vpc A B = 2 * A.vx := by
    unfold OrbOrbCollision.dvnPair
    rw [hNx, hNy, hNz, hvB]
    ring
  have hdpos : OrbOrbCollision.dvnPair msqrt rX rY rZ vpc A B > 0 := by
    rw [hdvn]
    linarith
  have hsne : ((A.size : ℚ)) ≠ 0 := by
    have h1 : (1 : ℚ) ≤ (A.size : ℚ) := by
      exact_mod_cast hszpos
    linarith
  have himpA : OrbOrbCollision.impulseAPair msqrt rX rY rZ vpc A B = 0.8 * A.vx := by
    unfold OrbOrbCollision.impulseAPair
    rw [hdvn, ← hsize]
    field_simp
    ring
  have himpB : OrbOrbCollision.impulseBPair msqrt rX rY rZ vpc A B = 0.8 * A.vx := by
    unfold OrbOrbCollision.impulseBPair
    rw [hdvn, ← hsize]
    field_simp
    ring
  refine ⟨?_, ?_, ?_, ?_, ?_, ?_⟩ <;>
  · simp only [OrbOrbCollision.resolveCollisionsPair]
    rw [if_pos hcol, if_pos hdpos]
    simp only [posCorrA_vx, posCorrA_vy, posCorrA_vz, posCorrB_vx, posCorrB_vy, posCorrB_vz,
      himpA, himpB, hNx, hNy, hNz, hvB]
    ring

/-- Witness for C1 amended: the two concrete head-on size-1 orbs end with
velocities scaled by 0.2. -/
theorem claim1_amended_witness :
    (OrbOrbCollision.resolveCollisionsPair msqrtW matan2W 1 0 0 vpcUnit
      orbHeadA orbHeadB).1.vx = (1 - 0.8) * orbHeadA.vx ∧
    (OrbOrbCollision.resolveCollisionsPair msqrtW matan2W 1 0 0 vpcUnit
      orbHeadA orbHeadB).2.vx = (1 - 0.8) * orbHeadB.vx := by
  have H := claim1_amended msqrtW matan2W 1 0 0 vpcUnit orbHeadA orbHeadB
    rfl
    (by norm_num [orbHeadA])
    (by norm_num [OrbOrbCollision.dyPair, OrbOrbCollision.cellY, orbHeadA, orbHeadB, vpcUnit])
    (by norm_num [OrbOrbCollision.dzPair, orbHeadA, orbHeadB])
    (by norm_num [OrbOrbCollision.dxPair, OrbOrbCollision.cellX, orbHeadA, orbHeadB, vpcUnit])
    (by norm_num [OrbOrbCollision.distSqPair, OrbOrbCollision.minDistPair,
      OrbOrbCollision.dxPair, OrbOrbCollision.dyPair, OrbOrbCollision.dzPair,
      OrbOrbCollision.cellX, OrbOrbCollision.cellY, orbHeadA, orbHeadB, vpcUnit])
    (by norm_num [OrbOrbCollision.distSqPair, OrbOrbCollision.dxPair, OrbOrbCollision.dyPair,
      OrbOrbCollision.dzPair, OrbOrbCollision.cellX, OrbOrbCollision.cellY, orbHeadA,
      orbHeadB, vpcUnit])
    (by norm_num [OrbOrbCollision.distSqPair, OrbOrbCollision.dxPair, OrbOrbCollision.dyPair,
      OrbOrbCollision.dzPair, OrbOrbCollision.cellX, OrbOrbCollision.cellY, orbHeadA,
      orbHeadB, vpcUnit, msqrtW])
    (by norm_num [vpcUnit, msqrtW])
    (by norm_num [vpcUnit])
    (by norm_num [orbHeadA, orbHeadB])
    (by norm_num [orbHeadA])
    (by norm_num [orbHeadB])
    (by norm_num [orbHeadA])
    (by norm_num [orbHeadB])
    (by norm_num [orbHeadA])
  exact ⟨H.1, H.2.1⟩

/-! ### Claim 2 -/

/-- C2 counterexample: for the two size-1 orbs approaching head-on, the
relative velocity along the collision normal after resolveCollisions is 4
px/s, still strictly positive: the pair is still approaching, only five
times slower. -/
theorem claim2_counterexample :
    ¬ (((OrbOrbCollision.resolveCollisionsPair msqrtW matan2W 1 0 0 vpcUnit
          orbHeadA orbHeadB).1.vx -
        (OrbOrbCollision.resolveCollisionsPair msqrtW matan2W 1 0 0 vpcUnit
          orbHeadA orbHeadB).2.vx) *
          OrbOrbCollision.nxPair msqrtW 1 0 0 vpcUnit orbHeadA orbHeadB +
        ((OrbOrbCollision.resolveCollisionsPair msqrtW matan2W 1 0 0 vpcUnit
          orbHeadA orbHeadB).1.vy -
        (OrbOrbCollision.resolveCollisionsPair msqrtW matan2W 1 0 0 vpcUnit
          orbHeadA orbHeadB).2.vy) *
          OrbOrbCollision.nyPair msqrtW 1 0 0 vpcUnit orbHeadA orbHeadB +
        ((OrbOrbCollision.resolveCollisionsPair msqrtW matan2W 1 0 0 vpcUnit
          orbHeadA orbHeadB).1.vz -
        (OrbOrbCollision.resolveCollisionsPair msqrtW matan2W 1 0 0 vpcUnit
          orbHeadA orbHeadB).2.vz) *
          OrbOrbCollision.nzPair msqrtW 1 0 0 vpcUnit orbHeadA orbHeadB ≤ 0) := by
  norm_num [OrbOrbCollision.resolveCollisionsPair, OrbOrbCollision.posCorrA,
    OrbOrbCollision.posCorrB, OrbOrbCollision.distSqPair, OrbOrbCollision.minDistPair,
    OrbOrbCollision.distPair, OrbOrbCollision.nxCellPair, OrbOrbCollision.nyCellPair,
    OrbOrbCollision.nzCellPair, OrbOrbCollision.nxPxPair, OrbOrbCollision.nyPxPair,
    OrbOrbCollision.nzPxPair, OrbOrbCollision.lenPxPair, OrbOrbCollision.nxPair,
    OrbOrbCollision.nyPair, OrbOrbCollision.nzPair, OrbOrbCollision.overlapPair,
    OrbOrbCollision.overlapFracPair, OrbOrbCollision.separationAPair,
    OrbOrbCollision.separationBPair, OrbOrbCollision.dvnPair,
    OrbOrbCollision.impulseAPair, OrbOrbCollision.impulseBPair,
    OrbOrbCollision.minImpulseAPair, OrbOrbCollision.minImpulseBPair,
    OrbOrbCollision.cellX, OrbOrbCollision.cellY, OrbOrbCollision.dxPair,
    OrbOrbCollision.dyPair, OrbOrbCollision.dzPair, msqrtW, matan2W, orbHeadA,
    orbHeadB, vpcUnit]

/-- C2 amended: for every overlapping, non-degenerate, approaching pair,
the post-resolution relative velocity along the collision normal equals
(1 - elasticity) = 0.2 times its previous value: it is strictly reduced
but remains strictly positive, so the pair is still (more slowly)
approaching rather than no longer approaching. -/
theorem claim2_amended (msqrt : ℚ → ℚ) (matan2 : ℚ → ℚ → ℚ) (rX rY rZ : ℚ)
    (vpc : ViewportCells) (A B : Orb)
    (hszA : 1 ≤ A.size) (hszB : 1 ≤ B.size)
    (hcol : OrbOrbCollision.distSqPair vpc A B <
      OrbOrbCollision.minDistPair A B * OrbOrbCollision.minDistPair A B)
    (hdvn : OrbOrbCollision.dvnPair msqrt rX rY rZ vpc A B > 0)
    (hlen2 : OrbOrbCollision.lenPxPair msqrt rX rY rZ vpc A B *
        OrbOrbCollision.lenPxPair msqrt rX rY rZ vpc A B =
      OrbOrbCollision.nxPxPair msqrt rX vpc A B * OrbOrbCollision.nxPxPair msqrt rX vpc A B +
        OrbOrbCollision.nyPxPair msqrt rY vpc A B * OrbOrbCollision.nyPxPair msqrt rY vpc A B +
        OrbOrbCollision.nzPxPair msqrt rZ vpc A B * OrbOrbCollision.nzPxPair msqrt rZ vpc A B)
    (hlenpos : OrbOrbCollision.lenPxPair msqrt rX rY rZ vpc A B > 0.001) :
    ((OrbOrbCollision.resolveCollisionsPair msqrt matan2 rX rY rZ vpc A B).1.vx -
        (OrbOrbCollision.resolveCollisionsPair msqrt matan2 rX rY rZ vpc A B).2.vx) *
        OrbOrbCollision.nxPair msqrt rX rY rZ vpc A B +
      ((OrbOrbCollision.resolveCollisionsPair msqrt matan2 rX rY rZ vpc A B).1.vy -
        (OrbOrbCollision.resolveCollisionsPair msqrt matan2 rX rY rZ vpc A B).2.vy) *
        OrbOrbCollision.nyPair msqrt rX rY rZ vpc A B +
      ((OrbOrbCollision.resolveCollisionsPair msqrt matan2 rX rY rZ vpc A B).1.vz -
        (OrbOrbCollision.resolveCollisionsPair msqrt matan2 rX rY rZ vpc A B).2.vz) *
        OrbOrbCollision.nzPair msqrt rX rY rZ vpc A B =
      (1 - 0.8) * OrbOrbCollision.dvnPair msqrt rX rY rZ vpc A B ∧
    0 < ((OrbOrbCollision.resolveCollisionsPair msqrt matan2 rX rY rZ vpc A B).1.vx -
        (OrbOrbCollision.resolveCollisionsPair msqrt matan2 rX rY rZ vpc A B).2.vx) *
        OrbOrbCollision.nxPair msqrt rX rY rZ vpc A B +
      ((OrbOrbCollision.resolveCollisionsPair msqrt matan2 rX rY rZ vpc A B).1.vy -
        (OrbOrbCollision.resolveCollisionsPair msqrt matan2 rX rY rZ vpc A B).2.vy) *
        OrbOrbCollision.nyPair msqrt rX rY rZ vpc A B +
      ((OrbOrbCollision.resolveCollisionsPair msqrt matan2 rX rY rZ vpc A B).1.vz -
        (OrbOrbCollision.resolveCollisionsPair msqrt matan2 rX rY rZ vpc A B).2.vz) *
        OrbOrbCollision.nzPair msqrt rX rY rZ vpc A B := by
  have hlne : OrbOrbCollision.lenPxPair msqrt rX rY rZ vpc A B ≠ 0 :=
    ne_of_gt (lt_trans (by norm_num) hlenpos)
  have hNsq : OrbOrbCollision.nxPair msqrt rX rY rZ vpc A B *
      OrbOrbCollision.nxPair msqrt rX rY rZ vpc A B +
      OrbOrbCollision.nyPair msqrt rX rY rZ vpc A B *
      OrbOrbCollision.nyPair msqrt rX rY rZ vpc A B +
      OrbOrbCollision.nzPair msqrt rX rY rZ vpc A B *
      OrbOrbCollision.nzPair msqrt rX rY rZ vpc A B = 1 := by
    unfold OrbOrbCollision.nxPair OrbOrbCollision.nyPair OrbOrbCollision.nzPair
    rw [if_pos hlenpos, if_pos hlenpos, if_pos hlenpos]
    field_simp
    linear_combination hlen2.symm
  have htpos : (0 : ℚ) < (A.size : ℚ) + (B.size : ℚ) := by
    have h1 : (1 : ℚ) ≤ (A.size : ℚ) := by
      exact_mod_cast hszA
    have h2 : (1 : ℚ) ≤ (B.size : ℚ) := by
      exact_mod_cast hszB
    linarith
  have htne := ne_of_gt htpos
  have himps : OrbOrbCollision.impulseAPair msqrt rX rY rZ vpc A B +
      OrbOrbCollision.impulseBPair msqrt rX rY rZ vpc A B =
      0.8 * OrbOrbCollision.dvnPair msqrt rX rY rZ vpc A B := by
    unfold OrbOrbCollision.impulseAPair OrbOrbCollision.impulseBPair
    field_simp
    ring
  have hdef : (A.vx - B.vx) * OrbOrbCollision.nxPair msqrt rX rY rZ vpc A B +
      (A.vy - B.vy) * OrbOrbCollision.nyPair msqrt rX rY rZ vpc A B +
      (A.vz - B.vz) * OrbOrbCollision.nzPair msqrt rX rY rZ vpc A B =
      OrbOrbCollision.dvnPair msqrt rX rY rZ vpc A B := rfl
  have hmain : ((OrbOrbCollision.resolveCollisionsPair msqrt matan2 rX rY rZ vpc A B).1.vx -
      (OrbOrbCollision.resolveCollisionsPair msqrt matan2 rX rY rZ vpc A B).2.vx) *
      OrbOrbCollision.nxPair msqrt rX rY rZ vpc A B +
      ((OrbOrbCollision.resolveCollisionsPair msqrt matan2 rX rY rZ vpc A B).1.vy -
      (OrbOrbCollision.resolveCollisionsPair msqrt matan2 rX rY rZ vpc A B).2.vy) *
      OrbOrbCollision.nyPair msqrt rX rY rZ vpc A B +
      ((OrbOrbCollision.resolveCollisionsPair msqrt matan2 rX rY rZ vpc A B).1.vz -
      (OrbOrbCollision.resolveCollisionsPair msqrt matan2 rX rY rZ vpc A B).2.vz) *
      OrbOrbCollision.nzPair msqrt rX rY rZ vpc A B =
      (1 - 0.8) * OrbOrbCollision.dvnPair msqrt rX rY rZ vpc A B := by
    simp only [OrbOrbCollision.resolveCollisionsPair]
    rw [if_pos hcol, if_pos hdvn]
    simp only [posCorrA_vx, posCorrA_vy, posCorrA_vz, posCorrB_vx, posCorrB_vy, posCorrB_vz]
    linear_combination hdef -
      (OrbOrbCollision.impulseAPair msqrt rX rY rZ vpc A B +
        OrbOrbCollision.impulseBPair msqrt rX rY rZ vpc A B) * hNsq - himps
  refine ⟨hmain, ?_⟩
  rw [hmain]
  nlinarith [hdvn]

/-- Witness for C2 amended: the concrete head-on pair ends with relative
normal velocity 0.2 times its previous value of 20 px/s, still
positive. -/
theorem claim2_amended_witness :
    ((OrbOrbCollision.resolveCollisionsPair msqrtW matan2W 1 0 0 vpcUnit
        orbHeadA orbHeadB).1.vx -
      (OrbOrbCollision.resolveCollisionsPair msqrtW matan2W 1 0 0 vpcUnit
        orbHeadA orbHeadB).2.vx) *
      OrbOrbCollision.nxPair msqrtW 1 0 0 vpcUnit orbHeadA orbHeadB +
      ((OrbOrbCollision.resolveCollisionsPair msqrtW matan2W 1 0 0 vpcUnit
        orbHeadA orbHeadB).1.vy -
      (OrbOrbCollision.resolveCollisionsPair msqrtW matan2W 1 0 0 vpcUnit
        orbHeadA orbHeadB).2.vy) *
      OrbOrbCollision.nyPair msqrtW 1 0 0 vpcUnit orbHeadA orbHeadB +
      ((OrbOrbCollision.resolveCollisionsPair msqrtW matan2W 1 0 0 vpcUnit
        orbHeadA orbHeadB).1.vz -
      (OrbOrbCollision.resolveCollisionsPair msqrtW matan2W 1 0 0 vpcUnit
        orbHeadA orbHeadB).2.vz) *
      OrbOrbCollision.nzPair msqrtW 1 0 0 vpcUnit orbHeadA orbHeadB =
      (1 - 0.8) * OrbOrbCollision.dvnPair msqrtW 1 0 0 vpcUnit orbHeadA orbHeadB := by
  have H := claim2_amended msqrtW matan2W 1 0 0 vpcUnit orbHeadA orbHeadB
    (by norm_num [orbHeadA])
    (by norm_num [orbHeadB])
    (by norm_num [OrbOrbCollision.distSqPair, OrbOrbCollision.minDistPair,
      OrbOrbCollision.dxPair, OrbOrbCollision.dyPair, OrbOrbCollision.dzPair,
      OrbOrbCollision.cellX, OrbOrbCollision.cellY, orbHeadA, orbHeadB, vpcUnit])
    (by norm_num [OrbOrbCollision.dvnPair, OrbOrbCollision.nxPair, OrbOrbCollision.nyPair,
      OrbOrbCollision.nzPair, OrbOrbCollision.lenPxPair, OrbOrbCollision.nxPxPair,
      OrbOrbCollision.nyPxPair, OrbOrbCollision.nzPxPair, OrbOrbCollision.nxCellPair,
      OrbOrbCollision.nyCellPair, OrbOrbCollision.nzCellPair, OrbOrbCollision.distPair,
      OrbOrbCollision.distSqPair, OrbOrbCollision.dxPair, OrbOrbCollision.dyPair,
      OrbOrbCollision.dzPair, OrbOrbCollision.cellX, OrbOrbCollision.cellY, msqrtW,
      orbHeadA, orbHeadB, vpcUnit])
    (by norm_num [OrbOrbCollision.lenPxPair, OrbOrbCollision.nxPxPair,
      OrbOrbCollision.nyPxPair, OrbOrbCollision.nzPxPair, OrbOrbCollision.nxCellPair,
      OrbOrbCollision.nyCellPair, OrbOrbCollision.nzCellPair, OrbOrbCollision.distPair,
      OrbOrbCollision.distSqPair, OrbOrbCollision.dxPair, OrbOrbCollision.dyPair,
      OrbOrbCollision.dzPair, OrbOrbCollision.cellX, OrbOrbCollision.cellY, msqrtW,
      orbHeadA, orbHeadB, vpcUnit])
    (by norm_num [OrbOrbCollision.lenPxPair, OrbOrbCollision.nxPxPair,
      OrbOrbCollision.nyPxPair, OrbOrbCollision.nzPxPair, OrbOrbCollision.nxCellPair,
      OrbOrbCollision.nyCellPair, OrbOrbCollision.nzCellPair, OrbOrbCollision.distPair,
      OrbOrbCollision.distSqPair, OrbOrbCollision.dxPair, OrbOrbCollision.dyPair,
      OrbOrbCollision.dzPair, OrbOrbCollision.cellX, OrbOrbCollision.cellY, msqrtW,
      orbHeadA, orbHeadB, vpcUnit])
  exact H.1

/-! ### Claim 9 -/

open OrbOrbCollisionF in
lemma posCorrAF_vx (msqrt : ℚ → ℚ) (rX rY rZ : ℚ) (vpc : ViewportCells) (A B : OrbF) :
    (posCorrAF msqrt rX rY rZ vpc A B).vx = A.vx := by
  unfold posCorrAF
  split
  · split <;> rfl
  · rfl

open OrbOrbCollisionF in
lemma posCorrAF_vy (msqrt : ℚ → ℚ) (rX rY rZ : ℚ) (vpc : ViewportCells) (A B : OrbF) :
    (posCorrAF msqrt rX rY rZ vpc A B).vy = A.vy := by
  unfold posCorrAF
  split
  · split <;> rfl
  · rfl

open OrbOrbCollisionF in
lemma posCorrAF_vz (msqrt : ℚ → ℚ) (rX rY rZ : ℚ) (vpc : ViewportCells) (A B : OrbF) :
    (posCorrAF msqrt rX rY rZ vpc A B).vz = A.vz := by
  unfold posCorrAF
  split
  · split <;> rfl
  · rfl

open OrbOrbCollisionF in
lemma posCorrBF_vx (msqrt : ℚ → ℚ) (rX rY rZ : ℚ) (vpc : ViewportCells) (A B : OrbF) :
    (posCorrBF msqrt rX rY rZ vpc A B).vx = B.vx := by
  unfold posCorrBF
  split
  · split <;> rfl
  · rfl

open OrbOrbCollisionF in
lemma posCorrBF_vy (msqrt : ℚ → ℚ) (rX rY rZ : ℚ) (vpc : ViewportCells) (A B : OrbF) :
    (posCorrBF msqrt rX rY rZ vpc A B).vy = B.vy := by
  unfold posCorrBF
  split
  · split <;> rfl
  · rfl

open OrbOrbCollisionF in
lemma posCorrBF_vz (msqrt : ℚ → ℚ) (rX rY rZ : ℚ) (vpc : ViewportCells) (A B : OrbF) :
    (posCorrBF msqrt rX rY rZ vpc A B).vz = B.vz := by
  unfold posCorrBF
  split
  · split <;> rfl
  · rfl

open OrbOrbCollisionF in
lemma posCorrAF_guard_false (msqrt : ℚ → ℚ) (rX rY rZ : ℚ) (vpc : ViewportCells)
    (A B : OrbF) (h : posGuardF msqrt rX rY rZ vpc A B = false) :
    posCorrAF msqrt rX rY rZ vpc A B = A := by
  unfold posCorrAF
  split
  · rw [h]
    simp
  · rfl

open OrbOrbCollisionF in
lemma posCorrBF_guard_false (msqrt : ℚ → ℚ) (rX rY rZ : ℚ) (vpc : ViewportCells)
    (A B : OrbF) (h : posGuardF msqrt rX rY rZ vpc A B = false) :
    posCorrBF msqrt rX rY rZ vpc A B = B := by
  unfold posCorrBF
  split
  · rw [h]
    simp
  · rfl

open OrbOrbCollisionF in
/-- C9: the pair resolution guards every applied value against non-finite
results.  (1) When the position-correction guard fails - some separation
value or cell-space normal component is non-finite - both positions are
left unchanged for the frame.  (2) When the pair is approaching and an
impulse value is non-finite, both velocities are left unchanged.  (3) For
two coincident orbs (squared distance 0, below the 0.001 threshold) the
random separation direction is substituted for the normal and the distance
is replaced by the constant 0.001, so the position correction applies a
finite displacement along the random direction instead of dividing by
zero. -/
theorem claim9_finiteness_guards (msqrt : ℚ → ℚ) (matan2 : FVal → FVal → FVal)
    (rX rY rZ : ℚ) (vpc : ViewportCells) :
    (∀ A B : OrbF, posGuardF msqrt rX rY rZ vpc A B = false →
      (resolveCollisionsPairF msqrt matan2 rX rY rZ vpc A B).1.pxX = A.pxX ∧
      (resolveCollisionsPairF msqrt matan2 rX rY rZ vpc A B).1.pxY = A.pxY ∧
      (resolveCollisionsPairF msqrt matan2 rX rY rZ vpc A B).1.z = A.z ∧
      (resolveCollisionsPairF msqrt matan2 rX rY rZ vpc A B).2.pxX = B.pxX ∧
      (resolveCollisionsPairF msqrt matan2 rX rY rZ vpc A B).2.pxY = B.pxY ∧
      (resolveCollisionsPairF msqrt matan2 rX rY rZ vpc A B).2.z = B.z) ∧
    (∀ A B : OrbF,
      (flt (fin 0) (dvnF msqrt rX rY rZ vpc A B) &&
        fIsFinite (dvnF msqrt rX rY rZ vpc A B)) = true →
      (fIsFinite (impulseAF msqrt rX rY rZ vpc A B) &&
        fIsFinite (impulseBF msqrt rX rY rZ vpc A B)) = false →
      (resolveCollisionsPairF msqrt matan2 rX rY rZ vpc A B).1.vx = A.vx ∧
      (resolveCollisionsPairF msqrt matan2 rX rY rZ vpc A B).1.vy = A.vy ∧
      (resolveCollisionsPairF msqrt matan2 rX rY rZ vpc A B).1.vz = A.vz ∧
      (resolveCollisionsPairF msqrt matan2 rX rY rZ vpc A B).2.vx = B.vx ∧
      (resolveCollisionsPairF msqrt matan2 rX rY rZ vpc A B).2.vy = B.vy ∧
      (resolveCollisionsPairF msqrt matan2 rX rY rZ vpc A B).2.vz = B.vz) ∧
    (∀ (A B : OrbF) (px py pz vx vy vz : ℚ), 1 ≤ A.size → 1 ≤ B.size →
      A.pxX = fin px → B.pxX = fin px → A.pxY = fin py → B.pxY = fin py →
      A.z = fin pz → B.z = fin pz →
      A.vx = fin vx → B.vx = fin vx → A.vy = fin vy → B.vy = fin vy →
      A.vz = fin vz → B.vz = fin vz →
      1 / 1000 < msqrt ((rX * vpc.cellSizeXPx) * (rX * vpc.cellSizeXPx) +
        (rY * vpc.cellSizeYPx) * (rY * vpc.cellSizeYPx) + rZ * rZ) →
      distF msqrt vpc A B = fin 0.001 ∧
      nxCellF msqrt rX vpc A B = fin rX ∧
      nyCellF msqrt rY vpc A B = fin rY ∧
      nzCellF msqrt rZ vpc A B = fin rZ ∧
      posGuardF msqrt rX rY rZ vpc A B = true ∧
      (resolveCollisionsPairF msqrt matan2 rX rY rZ vpc A B).1.pxX =
        fsub A.pxX (fmul (fmul (fin rX) (separationAF msqrt vpc A B))
          (fin vpc.cellSizeXPx)) ∧
      ((resolveCollisionsPairF msqrt matan2 rX rY rZ vpc A B).1.pxX).isSome = true) := by
  refine ⟨?_, ?_, ?_⟩
  · intro A B hg
    have hA := posCorrAF_guard_false msqrt rX rY rZ vpc A B hg
    have hB := posCorrBF_guard_false msqrt rX rY rZ vpc A B hg
    simp only [resolveCollisionsPairF, hA, hB]
    split
    · split
      · split
        · exact ⟨rfl, rfl, rfl, rfl, rfl, rfl⟩
        · exact ⟨rfl, rfl, rfl, rfl, rfl, rfl⟩
      · split
        · split
          · exact ⟨rfl, rfl, rfl, rfl, rfl, rfl⟩
          · exact ⟨rfl, rfl, rfl, rfl, rfl, rfl⟩
        · exact ⟨rfl, rfl, rfl, rfl, rfl, rfl⟩
    · exact ⟨rfl, rfl, rfl, rfl, rfl, rfl⟩
  · intro A B hbr hg
    simp only [resolveCollisionsPairF, hbr, hg]
    split
    · simp only [posCorrAF_vx, posCorrAF_vy, posCorrAF_vz, posCorrBF_vx, posCorrBF_vy,
        posCorrBF_vz]
      exact ⟨rfl, rfl, rfl, rfl, rfl, rfl⟩
    · exact ⟨rfl, rfl, rfl, rfl, rfl, rfl⟩
  · intro A B px py pz vx vy vz hsA hsB hApx hBpx hApy hBpy hApz hBpz hAvx hBvx hAvy hBvy
      hAvz hBvz hlen01
    have hdx : dxF vpc A B = fin 0 := by
      unfold dxF
      rw [hApx, hBpx]
      simp [fmul, fsub, fin]
    have hdy : dyF vpc A B = fin 0 := by
      unfold dyF
      rw [hApy, hBpy]
      simp [fmul, fsub, fin]
    have hdz : dzF A B = fin 0 := by
      unfold dzF
      rw [hApz, hBpz]
      simp [fsub, fin]
    have hdistSq : distSqF vpc A B = fin 0 := by
      unfold distSqF
      rw [hdx, hdy, hdz]
      simp [fmul, fadd, fin]
    have hdeg : flt (distSqF vpc A B) (fin 0.001) = true := by
      rw [hdistSq]
      norm_num [flt, fin]
    have hdist : distF msqrt vpc A B = fin 0.001 := by
      unfold distF
      rw [hdeg]
      simp
    have hnxC : nxCellF msqrt rX vpc A B = fin rX := by
      unfold nxCellF
      rw [hdeg]
      simp
    have hnyC : nyCellF msqrt rY vpc A B = fin rY := by
      unfold nyCellF
      rw [hdeg]
      simp
    have hnzC : nzCellF msqrt rZ vpc A B = fin rZ := by
      unfold nzCellF
      rw [hdeg]
      simp
    have hm1 : (1 : ℚ) ≤ minDistF A B := by
      unfold minDistF
      have c1 : (1 : ℚ) ≤ (A.size : ℚ) := by
        exact_mod_cast hsA
      have c2 : (1 : ℚ) ≤ (B.size : ℚ) := by
        exact_mod_cast hsB
      linarith
    have hcol : flt (distSqF vpc A B) (fin (minDistF A B * minDistF A B)) = true := by
      rw [hdistSq]
      simp only [flt, fin, decide_eq_true_eq]
      nlinarith
    have hover : overlapF msqrt vpc A B = fin (minDistF A B - 0.001) := by
      unfold overlapF
      rw [hdist]
      simp [fsub, fin]
    have hoverpos : flt (fin 0) (overlapF msqrt vpc A B) = true := by
      rw [hover]
      simp only [flt, fin, decide_eq_true_eq]
      norm_num
      linarith
    have hmne : minDistF A B ≠ 0 := by
      intro hc
      rw [hc] at hm1
      norm_num at hm1
    have hfrac : overlapFracF msqrt vpc A B =
        fin ((minDistF A B - 0.001) / minDistF A B) := by
      unfold overlapFracF
      rw [hoverpos, hover]
      simp [fdiv, fin, hmne]
    have hmpos : (0 : ℚ) < minDistF A B := by
      linarith
    have hfrac3 : flt (fin 0.3) (overlapFracF msqrt vpc A B) = true := by
      rw [hfrac]
      simp only [flt, fin, decide_eq_true_eq]
      rw [lt_div_iff₀ hmpos]
      nlinarith
    have htq : (0 : ℚ) < (A.size : ℚ) + (B.size : ℚ) := by
      have c1 : (1 : ℚ) ≤ (A.size : ℚ) := by
        exact_mod_cast hsA
      have c2 : (1 : ℚ) ≤ (B.size : ℚ) := by
        exact_mod_cast hsB
      linarith
    have htne : ((A.size : ℚ) + (B.size : ℚ)) ≠ 0 := ne_of_gt htq
    have hsepA : separationAF msqrt vpc A B =
        fin ((minDistF A B - 0.001) * (B.size : ℚ) / ((A.size : ℚ) + (B.size : ℚ)) *
          (1.2 + 0.8 * ((minDistF A B - 0.001) / minDistF A B))) := by
      unfold separationAF
      rw [hover, hfrac]
      simp [fmul, fdiv, fadd, fin, htne]
    have hsepB : separationBF msqrt vpc A B =
        fin ((minDistF A B - 0.001) * (A.size : ℚ) / ((A.size : ℚ) + (B.size : ℚ)) *
          (1.2 + 0.8 * ((minDistF A B - 0.001) / minDistF A B))) := by
      unfold separationBF
      rw [hover, hfrac]
      simp [fmul, fdiv, fadd, fin, htne]
    have hguard : posGuardF msqrt rX rY rZ vpc A B = true := by
      unfold posGuardF
      rw [hsepA, hsepB, hnxC, hnyC, hnzC]
      rfl
    have hApxXv : (posCorrAF msqrt rX rY rZ vpc A B).pxX =
        fsub A.pxX (fmul (fmul (nxCellF msqrt rX vpc A B) (separationAF msqrt vpc A B))
          (fin vpc.cellSizeXPx)) := by
      unfold posCorrAF
      rw [hoverpos, hguard]
      simp
    have hnxPx : nxPxF msqrt rX vpc A B = fin (rX * vpc.cellSizeXPx) := by
      unfold nxPxF
      rw [hnxC]
      simp [fmul, fin]
    have hnyPx : nyPxF msqrt rY vpc A B = fin (rY * vpc.cellSizeYPx) := by
      unfold nyPxF
      rw [hnyC]
      simp [fmul, fin]
    have hnzPx : nzPxF msqrt rZ vpc A B = fin rZ := by
      unfold nzPxF
      rw [hnzC]
    have hlenv : lenPxF msqrt rX rY rZ vpc A B =
        fin (msqrt ((rX * vpc.cellSizeXPx) * (rX * vpc.cellSizeXPx) +
          (rY * vpc.cellSizeYPx) * (rY * vpc.cellSizeYPx) + rZ * rZ)) := by
      unfold lenPxF
      rw [hnxPx, hnyPx, hnzPx]
      simp [fmul, fadd, fsqrt, fin]
    have hLne : msqrt ((rX * vpc.cellSizeXPx) * (rX * vpc.cellSizeXPx) +
        (rY * vpc.cellSizeYPx) * (rY * vpc.cellSizeYPx) + rZ * rZ) ≠ 0 := by
      have : (0 : ℚ) < msqrt ((rX * vpc.cellSizeXPx) * (rX * vpc.cellSizeXPx) +
          (rY * vpc.cellSizeYPx) * (rY * vpc.cellSizeYPx) + rZ * rZ) := by
        linarith
      exact ne_of_gt this
    have hfltL : flt (fin 0.001) (lenPxF msqrt rX rY rZ vpc A B) = true := by
      rw [hlenv]
      simp only [flt, fin, decide_eq_true_eq]
      norm_num
      linarith
    have hNx : nxF msqrt rX rY rZ vpc A B =
        fin (rX * vpc.cellSizeXPx / msqrt ((rX * vpc.cellSizeXPx) * (rX * vpc.cellSizeXPx) +
          (rY * vpc.cellSizeYPx) * (rY * vpc.cellSizeYPx) + rZ * rZ)) := by
      unfold nxF
      rw [hfltL, hnxPx, hlenv]
      simp [fdiv, fin, hLne]
    have hNy : nyF msqrt rX rY rZ vpc A B =
        fin (rY * vpc.cellSizeYPx / msqrt ((rX * vpc.cellSizeXPx) * (rX * vpc.cellSizeXPx) +
          (rY * vpc.cellSizeYPx) * (rY * vpc.cellSizeYPx) + rZ * rZ)) := by
      unfold nyF
      rw [hfltL, hnyPx, hlenv]
      simp [fdiv, fin, hLne]
    have hNz : nzF msqrt rX rY rZ vpc A B =
        fin (rZ / msqrt ((rX * vpc.cellSizeXPx) * (rX * vpc.cellSizeXPx) +
          (rY * vpc.cellSizeYPx) * (rY * vpc.cellSizeYPx) + rZ * rZ)) := by
      unfold nzF
      rw [hfltL, hnzPx, hlenv]
      simp [fdiv, fin, hLne]
    have hdvn : dvnF msqrt rX rY rZ vpc A B = fin 0 := by
      unfold dvnF
      rw [hAvx, hBvx, hAvy, hBvy, hAvz, hBvz, hNx, hNy, hNz]
      simp [fsub, fmul, fadd, fin]
    have helastic : (flt (fin 0) (dvnF msqrt rX rY rZ vpc A B) &&
        fIsFinite (dvnF msqrt rX rY rZ vpc A B)) = false := by
      rw [hdvn]
      norm_num [flt, fin]
    have himpA : minImpulseAF msqrt vpc A B =
        fin (20 * ((minDistF A B - 0.001) / minDistF A B) *
          ((B.size : ℚ) / ((A.size : ℚ) + (B.size : ℚ)))) := by
      unfold minImpulseAF
      rw [hfrac]
      simp [fmul, fdiv, fin, htne]
    have himpB : minImpulseBF msqrt vpc A B =
        fin (20 * ((minDistF A B - 0.001) / minDistF A B) *
          ((A.size : ℚ) / ((A.size : ℚ) + (B.size : ℚ)))) := by
      unfold minImpulseBF
      rw [hfrac]
      simp [fmul, fdiv, fin, htne]
    have hguard2 : (fIsFinite (minImpulseAF msqrt vpc A B) &&
        fIsFinite (minImpulseBF msqrt vpc A B)) = true := by
      rw [himpA, himpB]
      rfl
    have hout1 : (resolveCollisionsPairF msqrt matan2 rX rY rZ vpc A B).1.pxX =
        (posCorrAF msqrt rX rY rZ vpc A B).pxX := by
      simp only [resolveCollisionsPairF]
      rw [hcol, helastic, hfrac3, hguard2]
      simp
    refine ⟨hdist, hnxC, hnyC, hnzC, hguard, ?_, ?_⟩
    · rw [hout1, hApxXv, hnxC]
    · rw [hout1, hApxXv, hApx, hnxC, hsepA]
      simp [fsub, fmul, fin]

open OrbOrbCollisionF in
/-- Witness for C9: a pair with a non-finite X position keeps all its
positions and velocities; two coincident stationary size-1 orbs are pushed
apart along the supplied random direction with finite results. -/
theorem claim9_witness :
    (resolveCollisionsPairF msqrtW matan2WF 1 0 0 vpcUnit orbFNan orbFZero).1.pxX =
      orbFNan.pxX ∧
    (resolveCollisionsPairF msqrtW matan2WF 1 0 0 vpcUnit orbFSize0A orbFSize0B).1.vx =
      orbFSize0A.vx ∧
    distF msqrtW vpcUnit orbFZero orbFZero = fin 0.001 ∧
    nxCellF msqrtW 1 vpcUnit orbFZero orbFZero = fin 1 ∧
    ((resolveCollisionsPairF msqrtW matan2WF 1 0 0 vpcUnit orbFZero orbFZero).1.pxX).isSome =
      true := by
  have H := claim9_finiteness_guards msqrtW matan2WF 1 0 0 vpcUnit
  refine ⟨?_, ?_, ?_, ?_, ?_⟩
  · exact (H.1 orbFNan orbFZero rfl).1
  · refine (H.2.1 orbFSize0A orbFSize0B ?_ ?_).1
    · norm_num [dvnF, nxF, nyF, nzF, lenPxF, nxPxF, nyPxF, nzPxF, nxCellF, nyCellF,
        nzCellF, distF, distSqF, dxF, dyF, dzF, flt, fin, fIsFinite, fmul, fadd, fsub,
        fdiv, fsqrt, msqrtW, orbFSize0A, orbFSize0B, vpcUnit]
    · norm_num [impulseAF, impulseBF, dvnF, nxF, nyF, nzF, lenPxF, nxPxF, nyPxF, nzPxF,
        nxCellF, nyCellF, nzCellF, distF, distSqF, dxF, dyF, dzF, flt, fin, fIsFinite,
        fmul, fadd, fsub, fdiv, fsqrt, msqrtW, orbFSize0A, orbFSize0B, vpcUnit]
  · exact (H.2.2 orbFZero orbFZero 0 0 0 0 0 0 (by norm_num [orbFZero])
      (by norm_num [orbFZero]) rfl rfl rfl rfl rfl rfl rfl rfl rfl rfl rfl rfl
      (by norm_num [msqrtW, vpcUnit])).1
  · exact (H.2.2 orbFZero orbFZero 0 0 0 0 0 0 (by norm_num [orbFZero])
      (by norm_num [orbFZero]) rfl rfl rfl rfl rfl rfl rfl rfl rfl rfl rfl rfl
      (by norm_num [msqrtW, vpcUnit])).2.1
  · exact (H.2.2 orbFZero orbFZero 0 0 0 0 0 0 (by norm_num [orbFZero])
      (by norm_num [orbFZero]) rfl rfl rfl rfl rfl rfl rfl rfl rfl rfl rfl rfl
      (by norm_num [msqrtW, vpcUnit])).2.2.2.2.2.2

